import Mathlib

/-!
Verification development for the chart/worksheet core of this
xlsx-writing library.

The definitions below are a shallow embedding of `src/src/chart.c` and of
the worksheet declarations in the header appended to it.  The mutable
`lxw_chart` object is embedded as an explicit state record; every
serializer function of the C source that writes XML through the external
tag writer is embedded as a function returning the (possibly updated)
chart state together with the list of emitted XML events.  Machine
integers are `Nat` with explicit `% 2 ^ w` where the C source can wrap
(`uint16_t series_index`, `uint32_t` axis ids).  The C `double` payload of
a series data point is carried opaquely as `Int` (IEEE-754 arithmetic and
the external `%.16g` formatting are never inspected here).
-/

namespace Xlsx

/-- Modulus of a C `uint16_t` value. -/
def UINT16_MOD : Nat := 65536

/-- Modulus of a C `uint32_t` value. -/
def UINT32_MOD : Nat := 4294967296

/-! Chart type constants.  They are declared in `xlsxwriter/chart.h`
(not part of `src/`); the values below follow that enum's declaration
order starting from `LXW_CHART_NONE = 0`.  No claim depends on the
numeric values, only on their being distinct and on the dispatch
grouping in `_chart_write_chart_type`. -/

def LXW_CHART_NONE : Nat := 0
def LXW_CHART_AREA : Nat := 1
def LXW_CHART_AREA_STACKED : Nat := 2
def LXW_CHART_AREA_STACKED_PERCENT : Nat := 3
def LXW_CHART_BAR : Nat := 4
def LXW_CHART_BAR_STACKED : Nat := 5
def LXW_CHART_BAR_STACKED_PERCENT : Nat := 6
def LXW_CHART_COLUMN : Nat := 7
def LXW_CHART_COLUMN_STACKED : Nat := 8
def LXW_CHART_COLUMN_STACKED_PERCENT : Nat := 9
def LXW_CHART_LINE : Nat := 10

/-- The chart types handled by the `switch` of `_chart_write_chart_type`
(every other value falls into its `default:` branch). -/
abbrev recognizedChartType (t : Nat) : Prop :=
  t = LXW_CHART_AREA ∨ t = LXW_CHART_AREA_STACKED ∨
  t = LXW_CHART_AREA_STACKED_PERCENT ∨ t = LXW_CHART_BAR ∨
  t = LXW_CHART_BAR_STACKED ∨ t = LXW_CHART_BAR_STACKED_PERCENT ∨
  t = LXW_CHART_COLUMN ∨ t = LXW_CHART_COLUMN_STACKED ∨
  t = LXW_CHART_COLUMN_STACKED_PERCENT ∨ t = LXW_CHART_LINE

/-- Subtype constant used by the stacked chart variants (`chart.h`). -/
def LXW_CHART_SUBTYPE_STACKED : Nat := 1

/-- Modelled after `lxw_series_data_point`: one cached numeric point.
The C `number` field is a `double`; it is carried opaquely. -/
structure lxw_series_data_point where
  number : Int
deriving Repr, DecidableEq

/-- Modelled after `lxw_series_range`: a series reference plus its
optional data cache.  A C `NULL` formula is `none`; the STAILQ data
cache is a list (`lxw_chart_init_data_cache` resets it to empty). -/
structure lxw_series_range where
  formula : Option String
  num_data_points : Nat
  ignore_cache : Bool
  data_cache : List lxw_series_data_point
deriving Repr, DecidableEq

/-- Modelled after `lxw_chart_series`: the categories and values ranges. -/
structure lxw_chart_series where
  categories : lxw_series_range
  values : lxw_series_range
deriving Repr, DecidableEq

/-- Modelled after `lxw_axis`: only the default number format is used by
this serializer. -/
structure lxw_axis where
  default_num_format : String
deriving Repr, DecidableEq

/-- Modelled after `lxw_chart`.  The C `FILE *file` handle is replaced by
the event lists returned by the serializer functions; the fixed-size
`char` buffers for positions/grouping keywords are `String`s. -/
structure lxw_chart where
  type : Nat
  id : Nat
  series_list : List lxw_chart_series
  cat_axis_position : String
  val_axis_position : String
  grouping : String
  cross_between : String
  x_axis : lxw_axis
  y_axis : lxw_axis
  series_overlap_1 : Nat
  has_overlap : Bool
  has_markers : Bool
  cat_has_num_fmt : Bool
  subtype : Nat
  series_index : Nat
  axis_id_1 : Nat
  axis_id_2 : Nat
deriving Repr, DecidableEq

/-- One call into the external tag writer (or one warning).  This is the
trace of `lxw_xml_declaration`, `lxw_xml_start_tag`, `lxw_xml_empty_tag`,
`lxw_xml_end_tag`, `lxw_xml_data_element` and `LXW_WARN_FORMAT`. -/
inductive XMLEvent where
  | decl
  | startTag (name : String) (attrs : List (String × String))
  | emptyTag (name : String) (attrs : List (String × String))
  | endTag (name : String)
  | dataElement (name : String) (text : String)
  | warning (msg : String)
deriving Repr, DecidableEq

/-- Source: `lxw_chart_new`.  `calloc` zero-initialises every field; the
function then sets the defaults.  The workbook-assigned `id` is 0 until
the package assembler sets it. -/
def lxw_chart_new (type : Nat) : lxw_chart :=
  { type := type
    id := 0
    series_list := []
    cat_axis_position := "b"
    val_axis_position := "l"
    grouping := "clustered"
    cross_between := "between"
    x_axis := { default_num_format := "General" }
    y_axis := { default_num_format := "General" }
    series_overlap_1 := 100
    has_overlap := false
    has_markers := false
    cat_has_num_fmt := false
    subtype := 0
    series_index := 0
    axis_id_1 := 0
    axis_id_2 := 0 }

/-- Source: `_chart_add_axis_ids`.  All arithmetic is `uint32_t`. -/
def _chart_add_axis_ids (self : lxw_chart) : lxw_chart :=
  let chart_id := (50010000 + self.id) % UINT32_MOD
  let axis_count := 1
  let a1 := (chart_id + axis_count) % UINT32_MOD
  { self with axis_id_1 := a1, axis_id_2 := (a1 + 1) % UINT32_MOD }

def LXW_SCHEMA_ROOT : String := "http://schemas.openxmlformats.org"
def LXW_SCHEMA_DRAWING : String := LXW_SCHEMA_ROOT ++ "/drawingml/2006"
def LXW_SCHEMA_OFFICEDOC : String := LXW_SCHEMA_ROOT ++ "/officeDocument/2006"

/-- Source: `_chart_xml_declaration`. -/
def _chart_xml_declaration : List XMLEvent := [.decl]

/-- Source: `_chart_write_chart_space`. -/
def _chart_write_chart_space : List XMLEvent :=
  [.startTag "c:chartSpace"
    [("xmlns:c", LXW_SCHEMA_DRAWING ++ "/chart"),
     ("xmlns:a", LXW_SCHEMA_DRAWING ++ "/main"),
     ("xmlns:r", LXW_SCHEMA_OFFICEDOC ++ "/relationships")]]

/-- Source: `_chart_write_lang`. -/
def _chart_write_lang : List XMLEvent := [.emptyTag "c:lang" [("val", "en-US")]]

/-- Source: `_chart_write_layout`. -/
def _chart_write_layout : List XMLEvent := [.emptyTag "c:layout" []]

/-- Source: `_chart_write_grouping`. -/
def _chart_write_grouping (grouping : String) : List XMLEvent :=
  [.emptyTag "c:grouping" [("val", grouping)]]

/-- Source: `_chart_write_idx`. -/
def _chart_write_idx (index : Nat) : List XMLEvent :=
  [.emptyTag "c:idx" [("val", toString index)]]

/-- Source: `_chart_write_order`. -/
def _chart_write_order (index : Nat) : List XMLEvent :=
  [.emptyTag "c:order" [("val", toString index)]]

/-- Source: `_chart_write_axis_id`. -/
def _chart_write_axis_id (axis_id : Nat) : List XMLEvent :=
  [.emptyTag "c:axId" [("val", toString axis_id)]]

/-- Source: `_chart_write_axis_ids`: allocate the ids on first use
(`axis_id_1` still zero), then emit both. -/
def _chart_write_axis_ids (self : lxw_chart) : lxw_chart × List XMLEvent :=
  let self := if self.axis_id_1 = 0 then _chart_add_axis_ids self else self
  (self, _chart_write_axis_id self.axis_id_1 ++ _chart_write_axis_id self.axis_id_2)

/-- Source: `_chart_write_pt_count`. -/
def _chart_write_pt_count (num_data_points : Nat) : List XMLEvent :=
  [.emptyTag "c:ptCount" [("val", toString num_data_points)]]

/-- Source: `_chart_write_v`.  The external `%.16g` formatting of the
C `double` is replaced by `toString` of the opaque payload. -/
def _chart_write_v (number : Int) : List XMLEvent :=
  [.dataElement "c:v" (toString number)]

/-- Source: `_chart_write_pt`. -/
def _chart_write_pt (index : Nat) (number : Int) : List XMLEvent :=
  [.startTag "c:pt" [("idx", toString index)]] ++ _chart_write_v number ++ [.endTag "c:pt"]

/-- Source: `_chart_write_format_code`. -/
def _chart_write_format_code : List XMLEvent :=
  [.dataElement "c:formatCode" "General"]

/-- Source: the `STAILQ_FOREACH` loop of `_chart_write_num_cache`,
emitting one `c:pt` per cached point with a running index. -/
def writePoints (index : Nat) : List lxw_series_data_point → List XMLEvent
  | [] => []
  | p :: rest => _chart_write_pt index p.number ++ writePoints (index + 1) rest

/-- Source: `_chart_write_num_cache`. -/
def _chart_write_num_cache (range : lxw_series_range) : List XMLEvent :=
  [.startTag "c:numCache" []] ++ _chart_write_format_code
    ++ _chart_write_pt_count range.num_data_points
    ++ writePoints 0 range.data_cache
    ++ [.endTag "c:numCache"]

/-- Source: `_chart_write_data_cache` (only the number cache exists). -/
def _chart_write_data_cache (range : lxw_series_range) : List XMLEvent :=
  _chart_write_num_cache range

/-- Source: `_chart_write_f`.  A C `NULL` formula would be handed to the
external tag writer as-is; it is rendered here as the empty string. -/
def _chart_write_f (formula : Option String) : List XMLEvent :=
  [.dataElement "c:f" (formula.getD "")]

/-- Source: `_chart_write_num_ref`. -/
def _chart_write_num_ref (range : lxw_series_range) : List XMLEvent :=
  [.startTag "c:numRef" []] ++ _chart_write_f range.formula
    ++ (if range.data_cache = [] then [] else _chart_write_data_cache range)
    ++ [.endTag "c:numRef"]

/-- Source: `_chart_write_symbol`. -/
def _chart_write_symbol : List XMLEvent :=
  [.emptyTag "c:symbol" [("val", "none")]]

/-- Source: `_chart_write_marker` (the per-series form, guarded by
`has_markers`). -/
def _chart_write_marker (self : lxw_chart) : List XMLEvent :=
  if self.has_markers then
    [.startTag "c:marker" []] ++ _chart_write_symbol ++ [.endTag "c:marker"]
  else []

/-- Source: `_chart_write_marker_value`. -/
def _chart_write_marker_value : List XMLEvent :=
  [.emptyTag "c:marker" [("val", "1")]]

/-- Source: `_chart_write_cat`: skipped entirely for a series without a
categories formula, otherwise sets `cat_has_num_fmt` and emits the
`c:cat` wrapper around the numeric reference. -/
def _chart_write_cat (self : lxw_chart) (series : lxw_chart_series) :
    lxw_chart × List XMLEvent :=
  match series.categories.formula with
  | none => (self, [])
  | some _ =>
    ({ self with cat_has_num_fmt := true },
     [.startTag "c:cat" []] ++ _chart_write_num_ref series.categories
       ++ [.endTag "c:cat"])

/-- Source: `_chart_write_val`. -/
def _chart_write_val (series : lxw_chart_series) : List XMLEvent :=
  [.startTag "c:val" []] ++ _chart_write_num_ref series.values ++ [.endTag "c:val"]

/-- Source: `_chart_write_ser`.  `uint16_t index = self->series_index++`
reads the stored counter and post-increments it (wrapping as `uint16_t`). -/
def _chart_write_ser (self : lxw_chart) (series : lxw_chart_series) :
    lxw_chart × List XMLEvent :=
  let index := self.series_index
  let self := { self with series_index := (self.series_index + 1) % UINT16_MOD }
  let catResult := _chart_write_cat self series
  (catResult.1,
   [.startTag "c:ser" []] ++ _chart_write_idx index ++ _chart_write_order index
     ++ _chart_write_marker self ++ catResult.2 ++ _chart_write_val series
     ++ [.endTag "c:ser"])

/-- Source: the `STAILQ_FOREACH (series, self->series_list, ...)` loops of
the four chart type writers. -/
def writeSeriesList (self : lxw_chart) : List lxw_chart_series → lxw_chart × List XMLEvent
  | [] => (self, [])
  | s :: rest =>
    let first := _chart_write_ser self s
    let restResult := writeSeriesList first.1 rest
    (restResult.1, first.2 ++ restResult.2)

/-- Source: `_chart_write_orientation`. -/
def _chart_write_orientation : List XMLEvent :=
  [.emptyTag "c:orientation" [("val", "minMax")]]

/-- Source: `_chart_write_scaling`. -/
def _chart_write_scaling : List XMLEvent :=
  [.startTag "c:scaling" []] ++ _chart_write_orientation ++ [.endTag "c:scaling"]

/-- Source: `_chart_write_axis_pos`. -/
def _chart_write_axis_pos (position : String) : List XMLEvent :=
  [.emptyTag "c:axPos" [("val", position)]]

/-- Source: `_chart_write_tick_lbl_pos`. -/
def _chart_write_tick_lbl_pos : List XMLEvent :=
  [.emptyTag "c:tickLblPos" [("val", "nextTo")]]

/-- Source: `_chart_write_cross_axis`. -/
def _chart_write_cross_axis (axis_id : Nat) : List XMLEvent :=
  [.emptyTag "c:crossAx" [("val", toString axis_id)]]

/-- Source: `_chart_write_crosses`. -/
def _chart_write_crosses : List XMLEvent :=
  [.emptyTag "c:crosses" [("val", "autoZero")]]

/-- Source: `_chart_write_auto`. -/
def _chart_write_auto : List XMLEvent :=
  [.emptyTag "c:auto" [("val", "1")]]

/-- Source: `_chart_write_lbl_algn`. -/
def _chart_write_lbl_algn : List XMLEvent :=
  [.emptyTag "c:lblAlgn" [("val", "ctr")]]

/-- Source: `_chart_write_lbl_offset`. -/
def _chart_write_lbl_offset : List XMLEvent :=
  [.emptyTag "c:lblOffset" [("val", "100")]]

/-- Source: `_chart_write_major_gridlines`. -/
def _chart_write_major_gridlines : List XMLEvent :=
  [.emptyTag "c:majorGridlines" []]

/-- Source: `_chart_write_number_format`. -/
def _chart_write_number_format (axis : lxw_axis) : List XMLEvent :=
  [.emptyTag "c:numFmt"
    [("formatCode", axis.default_num_format), ("sourceLinked", "1")]]

/-- Source: `_chart_write_cross_between`. -/
def _chart_write_cross_between (self : lxw_chart) : List XMLEvent :=
  [.emptyTag "c:crossBetween" [("val", self.cross_between)]]

/-- Source: `_chart_write_legend_pos`. -/
def _chart_write_legend_pos : List XMLEvent :=
  [.emptyTag "c:legendPos" [("val", "r")]]

/-- Source: `_chart_write_legend`. -/
def _chart_write_legend : List XMLEvent :=
  [.startTag "c:legend" []] ++ _chart_write_legend_pos ++ _chart_write_layout
    ++ [.endTag "c:legend"]

/-- Source: `_chart_write_plot_vis_only`. -/
def _chart_write_plot_vis_only : List XMLEvent :=
  [.emptyTag "c:plotVisOnly" [("val", "1")]]

/-- Source: `_chart_write_header_footer`. -/
def _chart_write_header_footer : List XMLEvent :=
  [.emptyTag "c:headerFooter" []]

/-- Source: `_chart_write_page_margins`. -/
def _chart_write_page_margins : List XMLEvent :=
  [.emptyTag "c:pageMargins"
    [("b", "0.75"), ("l", "0.7"), ("r", "0.7"), ("t", "0.75"),
     ("header", "0.3"), ("footer", "0.3")]]

/-- Source: `_chart_write_page_setup`. -/
def _chart_write_page_setup : List XMLEvent :=
  [.emptyTag "c:pageSetup" []]

/-- Source: `_chart_write_print_settings`. -/
def _chart_write_print_settings : List XMLEvent :=
  [.startTag "c:printSettings" []] ++ _chart_write_header_footer
    ++ _chart_write_page_margins ++ _chart_write_page_setup
    ++ [.endTag "c:printSettings"]

/-- Source: `_chart_write_overlap`. -/
def _chart_write_overlap (overlap : Nat) : List XMLEvent :=
  [.emptyTag "c:overlap" [("val", toString overlap)]]

/-- Source: `_chart_write_cat_axis`. -/
def _chart_write_cat_axis (self : lxw_chart) : List XMLEvent :=
  [.startTag "c:catAx" []]
    ++ _chart_write_axis_id self.axis_id_1
    ++ _chart_write_scaling
    ++ _chart_write_axis_pos self.cat_axis_position
    ++ (if self.cat_has_num_fmt then _chart_write_number_format self.x_axis else [])
    ++ _chart_write_tick_lbl_pos
    ++ _chart_write_cross_axis self.axis_id_2
    ++ _chart_write_crosses
    ++ _chart_write_auto
    ++ _chart_write_lbl_algn
    ++ _chart_write_lbl_offset
    ++ [.endTag "c:catAx"]

/-- Source: `_chart_write_val_axis`. -/
def _chart_write_val_axis (self : lxw_chart) : List XMLEvent :=
  [.startTag "c:valAx" []]
    ++ _chart_write_axis_id self.axis_id_2
    ++ _chart_write_scaling
    ++ _chart_write_axis_pos self.val_axis_position
    ++ _chart_write_major_gridlines
    ++ _chart_write_number_format self.y_axis
    ++ _chart_write_tick_lbl_pos
    ++ _chart_write_cross_axis self.axis_id_1
    ++ _chart_write_crosses
    ++ _chart_write_cross_between self
    ++ [.endTag "c:valAx"]

/-- Source: `_chart_write_bar_dir`. -/
def _chart_write_bar_dir (type : String) : List XMLEvent :=
  [.emptyTag "c:barDir" [("val", type)]]

/-- Source: `_chart_write_area_chart`: mutates the grouping,
`cross_between`, stacked subtype and (percent variant only) the y-axis
default format before emitting the `c:areaChart` element. -/
def _chart_write_area_chart (self : lxw_chart) (type : Nat) : lxw_chart × List XMLEvent :=
  let self := { self with grouping := "standard", cross_between := "midCat" }
  let self :=
    if type = LXW_CHART_AREA_STACKED then
      { self with grouping := "stacked", subtype := LXW_CHART_SUBTYPE_STACKED }
    else self
  let self :=
    if type = LXW_CHART_AREA_STACKED_PERCENT then
      { self with grouping := "percentStacked",
                  y_axis := { self.y_axis with default_num_format := "0%" },
                  subtype := LXW_CHART_SUBTYPE_STACKED }
    else self
  let serResult := writeSeriesList self self.series_list
  let overlapEvents :=
    if serResult.1.has_overlap then _chart_write_overlap serResult.1.series_overlap_1 else []
  let axisResult := _chart_write_axis_ids serResult.1
  (axisResult.1,
   [.startTag "c:areaChart" []] ++ _chart_write_grouping self.grouping
     ++ serResult.2 ++ overlapEvents ++ axisResult.2 ++ [.endTag "c:areaChart"])

/-- Source: `_chart_write_bar_chart`: mutates grouping/overlap/subtype
for the stacked variants, swaps the default axis positions, then emits
the `c:barChart` element with `c:barDir val="bar"`. -/
def _chart_write_bar_chart (self : lxw_chart) (type : Nat) : lxw_chart × List XMLEvent :=
  let self :=
    if type = LXW_CHART_BAR_STACKED then
      { self with grouping := "stacked", has_overlap := true,
                  subtype := LXW_CHART_SUBTYPE_STACKED }
    else self
  let self :=
    if type = LXW_CHART_BAR_STACKED_PERCENT then
      { self with grouping := "percentStacked",
                  y_axis := { self.y_axis with default_num_format := "0%" },
                  has_overlap := true,
                  subtype := LXW_CHART_SUBTYPE_STACKED }
    else self
  let self := { self with cat_axis_position := "l", val_axis_position := "b" }
  let serResult := writeSeriesList self self.series_list
  let overlapEvents :=
    if serResult.1.has_overlap then _chart_write_overlap serResult.1.series_overlap_1 else []
  let axisResult := _chart_write_axis_ids serResult.1
  (axisResult.1,
   [.startTag "c:barChart" []] ++ _chart_write_bar_dir "bar"
     ++ _chart_write_grouping self.grouping
     ++ serResult.2 ++ overlapEvents ++ axisResult.2 ++ [.endTag "c:barChart"])

/-- Source: `_chart_write_column_chart`: like the bar writer but keeps
the default axis positions and emits `c:barDir val="col"`. -/
def _chart_write_column_chart (self : lxw_chart) (type : Nat) : lxw_chart × List XMLEvent :=
  let self :=
    if type = LXW_CHART_COLUMN_STACKED then
      { self with grouping := "stacked", has_overlap := true,
                  subtype := LXW_CHART_SUBTYPE_STACKED }
    else self
  let self :=
    if type = LXW_CHART_COLUMN_STACKED_PERCENT then
      { self with grouping := "percentStacked",
                  y_axis := { self.y_axis with default_num_format := "0%" },
                  has_overlap := true,
                  subtype := LXW_CHART_SUBTYPE_STACKED }
    else self
  let serResult := writeSeriesList self self.series_list
  let overlapEvents :=
    if serResult.1.has_overlap then _chart_write_overlap serResult.1.series_overlap_1 else []
  let axisResult := _chart_write_axis_ids serResult.1
  (axisResult.1,
   [.startTag "c:barChart" []] ++ _chart_write_bar_dir "col"
     ++ _chart_write_grouping self.grouping
     ++ serResult.2 ++ overlapEvents ++ axisResult.2 ++ [.endTag "c:barChart"])

/-- Source: `_chart_write_line_chart`: sets markers and standard
grouping, then emits the `c:lineChart` element. -/
def _chart_write_line_chart (self : lxw_chart) : lxw_chart × List XMLEvent :=
  let self := { self with has_markers := true, grouping := "standard" }
  let serResult := writeSeriesList self self.series_list
  let axisResult := _chart_write_axis_ids serResult.1
  (axisResult.1,
   [.startTag "c:lineChart" []] ++ _chart_write_grouping self.grouping
     ++ serResult.2 ++ _chart_write_marker_value ++ axisResult.2
     ++ [.endTag "c:lineChart"])

/-- Source: `_chart_write_chart_type`: the `switch` over the chart type,
with its `default:` branch issuing `LXW_WARN_FORMAT` and writing
nothing. -/
def _chart_write_chart_type (self : lxw_chart) (type : Nat) : lxw_chart × List XMLEvent :=
  if type = LXW_CHART_AREA ∨ type = LXW_CHART_AREA_STACKED ∨
     type = LXW_CHART_AREA_STACKED_PERCENT then
    _chart_write_area_chart self type
  else if type = LXW_CHART_BAR ∨ type = LXW_CHART_BAR_STACKED ∨
          type = LXW_CHART_BAR_STACKED_PERCENT then
    _chart_write_bar_chart self type
  else if type = LXW_CHART_COLUMN ∨ type = LXW_CHART_COLUMN_STACKED ∨
          type = LXW_CHART_COLUMN_STACKED_PERCENT then
    _chart_write_column_chart self type
  else if type = LXW_CHART_LINE then
    _chart_write_line_chart self
  else
    (self, [.warning ("workbook_add_chart(): unhandled chart type " ++ toString type)])

/-- Source: `_chart_write_plot_area`: opens `c:plotArea` (closed later in
`_chart_write_chart`) and dispatches on the chart's own type. -/
def _chart_write_plot_area (self : lxw_chart) : lxw_chart × List XMLEvent :=
  let typeResult := _chart_write_chart_type self self.type
  (typeResult.1,
   [.startTag "c:plotArea" []] ++ _chart_write_layout ++ typeResult.2)

/-- Source: `_chart_write_chart`.  The axes read the state left by the
plot-area dispatch; `c:plotArea` is closed only after both axes. -/
def _chart_write_chart (self : lxw_chart) : lxw_chart × List XMLEvent :=
  let plotResult := _chart_write_plot_area self
  (plotResult.1,
   [.startTag "c:chart" []] ++ plotResult.2
     ++ _chart_write_cat_axis plotResult.1
     ++ _chart_write_val_axis plotResult.1
     ++ [.endTag "c:plotArea"]
     ++ _chart_write_legend
     ++ _chart_write_plot_vis_only
     ++ [.endTag "c:chart"])

/-- Source: `lxw_chart_assemble_xml_file`: one full serialization pass. -/
def lxw_chart_assemble_xml_file (self : lxw_chart) : lxw_chart × List XMLEvent :=
  let chartResult := _chart_write_chart self
  (chartResult.1,
   _chart_xml_declaration ++ _chart_write_chart_space ++ _chart_write_lang
     ++ chartResult.2 ++ _chart_write_print_settings
     ++ [.endTag "c:chartSpace"])

/-- Source: `lxw_chart_init_data_cache`: (re)initialises the cache of a
range to the empty sequence.  The C allocation failure path is outside
the embedding. -/
def lxw_chart_init_data_cache (range : lxw_series_range) : lxw_series_range :=
  { range with data_cache := [] }

/-- Source: `lxw_chart_add_data_cache` (testing helper): marks the cache
as explicit, records the point count and caches column `col` of a
`rows × cols` byte matrix. -/
def lxw_chart_add_data_cache (range : lxw_series_range) (data : List Nat)
    (rows cols col : Nat) : lxw_series_range :=
  { range with ignore_cache := true, num_data_points := rows,
               data_cache := (List.range rows).map
                 (fun i => { number := Int.ofNat (data.getD (i * cols + col) 0) }) }

/-- Source: the `categories[0] == '='` test in `chart_add_series`: when
the first character of the reference is `=` the copy starts at the
second character (`lxw_strdup(categories + 1)`), otherwise the whole
string is copied. -/
def stripFormulaEq (s : String) : String :=
  if s.data.head? = some '=' then String.mk s.data.tail else s

/-- Source: `chart_add_series`: builds a zeroed series, stores each
non-NULL reference with a leading `=` stripped, initialises both data
caches and appends the series at the tail of the chart's list.  The only
C failure path is allocation failure, which is outside the embedding
(the function is total here). -/
def chart_add_series (self : lxw_chart) (categories values : Option String) :
    lxw_chart × lxw_chart_series :=
  let emptyRange : lxw_series_range :=
    { formula := none, num_data_points := 0, ignore_cache := false, data_cache := [] }
  let series : lxw_chart_series := { categories := emptyRange, values := emptyRange }
  let series :=
    match categories with
    | some s => { series with categories := { series.categories with formula := some (stripFormulaEq s) } }
    | none => series
  let series :=
    match values with
    | some s => { series with values := { series.values with formula := some (stripFormulaEq s) } }
    | none => series
  let series := { series with categories := lxw_chart_init_data_cache series.categories,
                              values := lxw_chart_init_data_cache series.values }
  ({ self with series_list := self.series_list ++ [series] }, series)

/-- A zeroed series range, as produced by `calloc` in
`chart_add_series` followed by `lxw_chart_init_data_cache`. -/
def emptySeriesRange : lxw_series_range :=
  { formula := none, num_data_points := 0, ignore_cache := false, data_cache := [] }

/-- A series with no references and empty caches. -/
def emptySeries : lxw_chart_series :=
  { categories := emptySeriesRange, values := emptySeriesRange }

/-! Observation functions over the emitted event trace. -/

/-- Tag-name test for the events that open an element (start or empty). -/
def isTagNamed (name : String) : XMLEvent → Bool
  | .startTag n _ => n = name
  | .emptyTag n _ => n = name
  | _ => false

/-- Number of elements of the given name opened in a trace. -/
def tagCount (name : String) (events : List XMLEvent) : Nat :=
  events.countP (isTagNamed name)

/-- The `val` attribute of an empty tag of the given name, if any. -/
def valOf (name : String) : XMLEvent → Option String
  | .emptyTag n attrs => if n = name then attrs.lookup "val" else none
  | _ => none

/-- All `val` attributes of the empty tags of the given name, in order. -/
def valsOfTag (name : String) (events : List XMLEvent) : List String :=
  events.filterMap (valOf name)

/-- Warning test. -/
def isWarning : XMLEvent → Bool
  | .warning _ => true
  | _ => false

/-- Number of warnings in a trace. -/
def warnCount (events : List XMLEvent) : Nat :=
  events.countP isWarning

/-- Stack-based well-nestedness check of a trace. -/
def balancedAux : List XMLEvent → List String → Bool
  | [], [] => true
  | [], _ :: _ => false
  | .startTag n _ :: rest, stack => balancedAux rest (n :: stack)
  | .endTag n :: rest, m :: stack => if n = m then balancedAux rest stack else false
  | .endTag _ :: _, [] => false
  | .decl :: rest, stack => balancedAux rest stack
  | .emptyTag _ _ :: rest, stack => balancedAux rest stack
  | .dataElement _ _ :: rest, stack => balancedAux rest stack
  | .warning _ :: rest, stack => balancedAux rest stack

/-- A trace is balanced when every start tag is closed in order. -/
def balanced (events : List XMLEvent) : Bool := balancedAux events []

/-- Value of the `uint16_t` series counter after `n` post-increments. -/
def siAfter : Nat → Nat → Nat
  | si, 0 => si
  | si, n + 1 => siAfter ((si + 1) % UINT16_MOD) n

/-- Value of `cat_has_num_fmt` after serializing the given series. -/
def cfAfter (b : Bool) (l : List lxw_chart_series) : Bool :=
  b || l.any (fun s => s.categories.formula.isSome)

/-- The successive `c:idx` (and `c:order`) values emitted for `n` series
starting from counter value `si`. -/
def idxList : Nat → Nat → List String
  | _, 0 => []
  | si, n + 1 => toString si :: idxList ((si + 1) % UINT16_MOD) n

/-! Worksheet sparse cell/row store.

Of the worksheet component only the header `worksheet.h` (error enum,
struct declarations, API documentation) is among the sources; the
implementation file `worksheet.c` is not.  The store and its `write`
operation are therefore modelled from the spec; the error enum and the
Excel limits are taken from the header. -/

/-- Source: `enum lxw_write_error` in `worksheet.h`. -/
inductive lxw_write_error where
  | LXW_WRITE_ERROR_NONE
  | LXW_RANGE_ERROR
  | LXW_STRING_HASH_ERROR
  | LXW_STRING_LENGTH_ERROR
  | LXW_END
deriving Repr, DecidableEq

/-- Maximum row count in Excel (`worksheet.h`: 1,048,576). -/
def LXW_ROW_MAX : Nat := 1048576

/-- Maximum column count in Excel (`worksheet.h`: 16,384). -/
def LXW_COL_MAX : Nat := 16384

/-- Modelled from the spec: a cell holds exactly one of Number,
SharedStringRef(id), Formula(text, cached result) or Blank (spec data
model); numeric payloads are C doubles, carried opaquely. -/
inductive CellValue where
  | Number (n : Int)
  | SharedStringRef (id : Nat)
  | Formula (text : String) (result : Int)
  | Blank
deriving Repr, DecidableEq

/-- Modelled after `lxw_cell` in `worksheet.h`; the style handle is an
opaque external format handle. -/
structure lxw_cell where
  row_num : Nat
  col_num : Nat
  value : CellValue
  format : Option Nat
deriving Repr, DecidableEq

/-- Modelled after `lxw_row` in `worksheet.h` (the height, format and
visibility flags are not needed by any claim). -/
structure lxw_row where
  row_num : Nat
  cells : List lxw_cell
deriving Repr, DecidableEq

/-- Modelled after `lxw_worksheet` in `worksheet.h`: the ordered row
table and the dimension bounds. -/
structure lxw_worksheet where
  table : List lxw_row
  dim_rowmin : Nat
  dim_rowmax : Nat
  dim_colmin : Nat
  dim_colmax : Nat
deriving Repr, DecidableEq

/-- Modelled from the spec: worksheet.c is missing; insertion of a cell
into a row's ascending cell list — new cell at the sorted position if
the column is absent, otherwise the existing cell's value and format are
overwritten (identity preserved). -/
def insertCellSorted : List lxw_cell → lxw_cell → List lxw_cell
  | [], c => [c]
  | x :: xs, c =>
    if c.col_num < x.col_num then c :: x :: xs
    else if c.col_num = x.col_num then
      { x with value := c.value, format := c.format } :: xs
    else x :: insertCellSorted xs c

/-- Modelled from the spec: worksheet.c is missing; insertion of a cell
into the ascending row table, creating the row at its sorted position
when absent. -/
def insertRowSorted : List lxw_row → Nat → lxw_cell → List lxw_row
  | [], row, c => [{ row_num := row, cells := [c] }]
  | x :: xs, row, c =>
    if row < x.row_num then { row_num := row, cells := [c] } :: x :: xs
    else if row = x.row_num then { x with cells := insertCellSorted x.cells c } :: xs
    else x :: insertRowSorted xs row c

/-- Modelled from the spec: worksheet.c is missing; `write(row, col,
value, format)` of the sparse cell/row store.  It fails with
`LXW_RANGE_ERROR` outside the Excel limits, leaving the store (table and
dimension bounds) unchanged, and otherwise stores the cell at its sorted
position and updates the dimension bounds. -/
def worksheet_write (ws : lxw_worksheet) (row col : Nat) (value : CellValue)
    (format : Option Nat) : lxw_write_error × lxw_worksheet :=
  if row ≥ LXW_ROW_MAX ∨ col ≥ LXW_COL_MAX then (.LXW_RANGE_ERROR, ws)
  else
    (.LXW_WRITE_ERROR_NONE,
     { table := insertRowSorted ws.table row
         { row_num := row, col_num := col, value := value, format := format }
       dim_rowmin := min ws.dim_rowmin row
       dim_rowmax := max ws.dim_rowmax row
       dim_colmin := min ws.dim_colmin col
       dim_colmax := max ws.dim_colmax col })

/-- Model read-back from a row table: the cell stored at the given
coordinates, if any. -/
def lookupTable (t : List lxw_row) (row col : Nat) : Option lxw_cell :=
  match t.find? (fun r => r.row_num == row) with
  | none => none
  | some r => r.cells.find? (fun b => b.col_num == col)

/-- Model read-back from a worksheet. -/
def lookupCell (ws : lxw_worksheet) (row col : Nat) : Option lxw_cell :=
  lookupTable ws.table row col

/-- Well-formedness of the store: row numbers strictly ascending, column
numbers within each row strictly ascending, and every cell labelled with
its row's number. -/
def tableWF (t : List lxw_row) : Prop :=
  List.Pairwise (fun a b => a.row_num < b.row_num) t ∧
  ∀ r ∈ t, List.Pairwise (fun a b => a.col_num < b.col_num) r.cells ∧
    ∀ b ∈ r.cells, b.row_num = r.row_num

theorem tagCount_nil (name : String) : tagCount name [] = 0 := rfl

theorem tagCount_cons (name : String) (e : XMLEvent) (l : List XMLEvent) :
    tagCount name (e :: l) = tagCount name l + (if isTagNamed name e then 1 else 0) :=
  List.countP_cons ..

theorem tagCount_append (name : String) (a b : List XMLEvent) :
    tagCount name (a ++ b) = tagCount name a + tagCount name b :=
  List.countP_append ..

theorem valsOfTag_nil (name : String) : valsOfTag name [] = [] := rfl

theorem valsOfTag_cons (name : String) (e : XMLEvent) (l : List XMLEvent) :
    valsOfTag name (e :: l) = (valOf name e).toList ++ valsOfTag name l := by
  cases h : valOf name e <;> simp [valsOfTag, List.filterMap_cons, h]

theorem valsOfTag_append (name : String) (a b : List XMLEvent) :
    valsOfTag name (a ++ b) = valsOfTag name a ++ valsOfTag name b :=
  List.filterMap_append ..

theorem warnCount_nil : warnCount [] = 0 := rfl

theorem warnCount_cons (e : XMLEvent) (l : List XMLEvent) :
    warnCount (e :: l) = warnCount l + (if isWarning e then 1 else 0) :=
  List.countP_cons ..

theorem warnCount_append (a b : List XMLEvent) :
    warnCount (a ++ b) = warnCount a + warnCount b :=
  List.countP_append ..

/-- State effect of one `_chart_write_ser` call: advance the series
counter and record whether the series had category values. -/
theorem ser_fst (c : lxw_chart) (s : lxw_chart_series) :
    (_chart_write_ser c s).1 =
      { c with series_index := (c.series_index + 1) % UINT16_MOD,
               cat_has_num_fmt := c.cat_has_num_fmt || s.categories.formula.isSome } := by
  unfold _chart_write_ser _chart_write_cat
  cases h : s.categories.formula <;> simp [h]

/-- State effect of the series loop: every field except the series
counter and `cat_has_num_fmt` is left unchanged. -/
theorem writeSeriesList_fst (c : lxw_chart) (l : List lxw_chart_series) :
    (writeSeriesList c l).1 =
      { c with series_index := siAfter c.series_index l.length,
               cat_has_num_fmt := cfAfter c.cat_has_num_fmt l } := by
  induction l generalizing c with
  | nil => simp [writeSeriesList, siAfter, cfAfter]
  | cons s rest ih =>
    simp [writeSeriesList, ser_fst, ih, siAfter, cfAfter, Bool.or_assoc,
      List.length_cons, List.any_cons]

theorem valsOfTag_writePoints (name : String) (i : Nat)
    (pts : List lxw_series_data_point) :
    valsOfTag name (writePoints i pts) = [] := by
  induction pts generalizing i with
  | nil => rfl
  | cons p rest ih =>
    simp [writePoints, _chart_write_pt, _chart_write_v, valsOfTag_cons,
      valsOfTag_append, valsOfTag_nil, valOf, Option.toList, ih]

theorem tagCount_writePoints (name : String) (i : Nat)
    (pts : List lxw_series_data_point) (h : name ≠ "c:pt") :
    tagCount name (writePoints i pts) = 0 := by
  induction pts generalizing i with
  | nil => rfl
  | cons p rest ih =>
    simp [writePoints, _chart_write_pt, _chart_write_v, tagCount_cons,
      tagCount_append, tagCount_nil, isTagNamed, Ne.symm h, ih]

/-- A single series element opens no element apart from the eleven fixed
names of `_chart_write_ser` and its callees. -/
theorem tagCount_ser (c : lxw_chart) (s : lxw_chart_series) (name : String)
    (h1 : name ≠ "c:ser") (h2 : name ≠ "c:idx") (h3 : name ≠ "c:order")
    (h4 : name ≠ "c:marker") (h5 : name ≠ "c:symbol") (h6 : name ≠ "c:cat")
    (h7 : name ≠ "c:numRef") (h8 : name ≠ "c:numCache") (h9 : name ≠ "c:ptCount")
    (h10 : name ≠ "c:pt") (h11 : name ≠ "c:val") :
    tagCount name (_chart_write_ser c s).2 = 0 := by
  unfold _chart_write_ser _chart_write_cat _chart_write_val _chart_write_num_ref
    _chart_write_data_cache _chart_write_num_cache
  cases hm : c.has_markers <;>
    cases hf : s.categories.formula <;>
    cases hcc : s.categories.data_cache <;>
    cases hvc : s.values.data_cache <;>
    simp [hm, hf, hcc, hvc, _chart_write_idx, _chart_write_order, _chart_write_marker,
      _chart_write_symbol, _chart_write_f, _chart_write_format_code,
      _chart_write_pt_count, tagCount_cons, tagCount_append, tagCount_nil,
      isTagNamed, tagCount_writePoints _ _ _ h10,
      Ne.symm h1, Ne.symm h2, Ne.symm h3, Ne.symm h4, Ne.symm h5, Ne.symm h6,
      Ne.symm h7, Ne.symm h8, Ne.symm h9, Ne.symm h10, Ne.symm h11]

/-- The series loop opens no element apart from the eleven fixed names. -/
theorem tagCount_seriesList (c : lxw_chart) (l : List lxw_chart_series) (name : String)
    (h1 : name ≠ "c:ser") (h2 : name ≠ "c:idx") (h3 : name ≠ "c:order")
    (h4 : name ≠ "c:marker") (h5 : name ≠ "c:symbol") (h6 : name ≠ "c:cat")
    (h7 : name ≠ "c:numRef") (h8 : name ≠ "c:numCache") (h9 : name ≠ "c:ptCount")
    (h10 : name ≠ "c:pt") (h11 : name ≠ "c:val") :
    tagCount name (writeSeriesList c l).2 = 0 := by
  induction l generalizing c with
  | nil => rfl
  | cons s rest ih =>
    simp [writeSeriesList, tagCount_append,
      tagCount_ser c s name h1 h2 h3 h4 h5 h6 h7 h8 h9 h10 h11, ih]

/-- The only `val`-carrying empty tags inside a series element are
`c:idx`, `c:order`, `c:symbol` and `c:ptCount`. -/
theorem valsOfTag_ser (c : lxw_chart) (s : lxw_chart_series) (name : String)
    (h1 : name ≠ "c:idx") (h2 : name ≠ "c:order")
    (h3 : name ≠ "c:symbol") (h4 : name ≠ "c:ptCount") :
    valsOfTag name (_chart_write_ser c s).2 = [] := by
  unfold _chart_write_ser _chart_write_cat _chart_write_val _chart_write_num_ref
    _chart_write_data_cache _chart_write_num_cache
  cases hm : c.has_markers <;>
    cases hf : s.categories.formula <;>
    cases hcc : s.categories.data_cache <;>
    cases hvc : s.values.data_cache <;>
    simp [hm, hf, hcc, hvc, _chart_write_idx, _chart_write_order, _chart_write_marker,
      _chart_write_symbol, _chart_write_f, _chart_write_format_code,
      _chart_write_pt_count, valsOfTag_cons, valsOfTag_append, valsOfTag_nil,
      valOf, Option.toList, valsOfTag_writePoints,
      Ne.symm h1, Ne.symm h2, Ne.symm h3, Ne.symm h4]

/-- Series-loop version of `valsOfTag_ser`. -/
theorem valsOfTag_seriesList (c : lxw_chart) (l : List lxw_chart_series) (name : String)
    (h1 : name ≠ "c:idx") (h2 : name ≠ "c:order")
    (h3 : name ≠ "c:symbol") (h4 : name ≠ "c:ptCount") :
    valsOfTag name (writeSeriesList c l).2 = [] := by
  induction l generalizing c with
  | nil => rfl
  | cons s rest ih =>
    simp [writeSeriesList, valsOfTag_append,
      valsOfTag_ser c s name h1 h2 h3 h4, ih]

/-- A series element of a chart without markers opens no `c:marker`. -/
theorem tagCount_marker_ser (c : lxw_chart) (s : lxw_chart_series)
    (h : c.has_markers = false) :
    tagCount "c:marker" (_chart_write_ser c s).2 = 0 := by
  unfold _chart_write_ser _chart_write_cat _chart_write_val _chart_write_num_ref
    _chart_write_data_cache _chart_write_num_cache
  cases hf : s.categories.formula <;>
    cases hcc : s.categories.data_cache <;>
    cases hvc : s.values.data_cache <;>
    simp [hf, hcc, hvc, h, _chart_write_idx, _chart_write_order, _chart_write_marker,
      _chart_write_symbol, _chart_write_f, _chart_write_format_code,
      _chart_write_pt_count, tagCount_cons, tagCount_append, tagCount_nil,
      isTagNamed, tagCount_writePoints]

/-- Series-loop version of `tagCount_marker_ser`: `has_markers` is
preserved by the loop, so no series opens a marker. -/
theorem tagCount_marker_seriesList (c : lxw_chart) (l : List lxw_chart_series)
    (h : c.has_markers = false) :
    tagCount "c:marker" (writeSeriesList c l).2 = 0 := by
  induction l generalizing c with
  | nil => rfl
  | cons s rest ih =>
    have hpres : (_chart_write_ser c s).1.has_markers = false := by
      simp [ser_fst, h]
    simp [writeSeriesList, tagCount_append, tagCount_marker_ser c s h, ih _ hpres]

theorem warnCount_writePoints (i : Nat) (pts : List lxw_series_data_point) :
    warnCount (writePoints i pts) = 0 := by
  induction pts generalizing i with
  | nil => rfl
  | cons p rest ih =>
    simp [writePoints, _chart_write_pt, _chart_write_v, warnCount_cons,
      warnCount_append, warnCount_nil, isWarning, ih]

/-- No warning is issued inside a series element. -/
theorem warnCount_ser (c : lxw_chart) (s : lxw_chart_series) :
    warnCount (_chart_write_ser c s).2 = 0 := by
  unfold _chart_write_ser _chart_write_cat _chart_write_val _chart_write_num_ref
    _chart_write_data_cache _chart_write_num_cache
  cases hm : c.has_markers <;>
    cases hf : s.categories.formula <;>
    cases hcc : s.categories.data_cache <;>
    cases hvc : s.values.data_cache <;>
    simp [hm, hf, hcc, hvc, _chart_write_idx, _chart_write_order, _chart_write_marker,
      _chart_write_symbol, _chart_write_f, _chart_write_format_code,
      _chart_write_pt_count, warnCount_cons, warnCount_append, warnCount_nil,
      isWarning, warnCount_writePoints]

theorem warnCount_seriesList (c : lxw_chart) (l : List lxw_chart_series) :
    warnCount (writeSeriesList c l).2 = 0 := by
  induction l generalizing c with
  | nil => rfl
  | cons s rest ih =>
    simp [writeSeriesList, warnCount_append, warnCount_ser, ih]

/-- The `c:idx` values of a single series element: exactly the current
counter value. -/
theorem valsOfTag_idx_ser (c : lxw_chart) (s : lxw_chart_series) :
    valsOfTag "c:idx" (_chart_write_ser c s).2 = [toString c.series_index] := by
  unfold _chart_write_ser _chart_write_cat _chart_write_val _chart_write_num_ref
    _chart_write_data_cache _chart_write_num_cache
  cases hm : c.has_markers <;>
    cases hf : s.categories.formula <;>
    cases hcc : s.categories.data_cache <;>
    cases hvc : s.values.data_cache <;>
    simp [hm, hf, hcc, hvc, _chart_write_idx, _chart_write_order, _chart_write_marker,
      _chart_write_symbol, _chart_write_f, _chart_write_format_code,
      _chart_write_pt_count, valsOfTag_cons, valsOfTag_append, valsOfTag_nil,
      valOf, Option.toList, List.lookup, valsOfTag_writePoints]

/-- The `c:order` values of a single series element. -/
theorem valsOfTag_order_ser (c : lxw_chart) (s : lxw_chart_series) :
    valsOfTag "c:order" (_chart_write_ser c s).2 = [toString c.series_index] := by
  unfold _chart_write_ser _chart_write_cat _chart_write_val _chart_write_num_ref
    _chart_write_data_cache _chart_write_num_cache
  cases hm : c.has_markers <;>
    cases hf : s.categories.formula <;>
    cases hcc : s.categories.data_cache <;>
    cases hvc : s.values.data_cache <;>
    simp [hm, hf, hcc, hvc, _chart_write_idx, _chart_write_order, _chart_write_marker,
      _chart_write_symbol, _chart_write_f, _chart_write_format_code,
      _chart_write_pt_count, valsOfTag_cons, valsOfTag_append, valsOfTag_nil,
      valOf, Option.toList, List.lookup, valsOfTag_writePoints]

/-- The `c:idx` values emitted by the series loop are the successive
values of the stored counter. -/
theorem valsOfTag_idx_seriesList (c : lxw_chart) (l : List lxw_chart_series) :
    valsOfTag "c:idx" (writeSeriesList c l).2 = idxList c.series_index l.length := by
  induction l generalizing c with
  | nil => rfl
  | cons s rest ih =>
    simp [writeSeriesList, valsOfTag_append, valsOfTag_idx_ser, ih, ser_fst, idxList]

/-- Same for the `c:order` values. -/
theorem valsOfTag_order_seriesList (c : lxw_chart) (l : List lxw_chart_series) :
    valsOfTag "c:order" (writeSeriesList c l).2 = idxList c.series_index l.length := by
  induction l generalizing c with
  | nil => rfl
  | cons s rest ih =>
    simp [writeSeriesList, valsOfTag_append, valsOfTag_order_ser, ih, ser_fst, idxList]

/-! Lemmas about the worksheet store. -/

/-- Cells of an insertion result: the new cell, an old cell, or an old
cell of the same column with overwritten value/format. -/
theorem insertCellSorted_subset (xs : List lxw_cell) (c : lxw_cell) :
    ∀ b ∈ insertCellSorted xs c, b = c ∨ b ∈ xs ∨
      ∃ x, x ∈ xs ∧ x.col_num = c.col_num ∧
        b = { x with value := c.value, format := c.format } := by
  induction xs with
  | nil =>
    intro b hb
    simp only [insertCellSorted, List.mem_singleton] at hb
    exact Or.inl hb
  | cons x rest ih =>
    intro b hb
    unfold insertCellSorted at hb
    by_cases h1 : c.col_num < x.col_num
    · rw [if_pos h1] at hb
      rcases List.mem_cons.1 hb with rfl | h
      · exact Or.inl rfl
      · exact Or.inr (Or.inl h)
    · rw [if_neg h1] at hb
      by_cases h2 : c.col_num = x.col_num
      · rw [if_pos h2] at hb
        rcases List.mem_cons.1 hb with rfl | h
        · exact Or.inr (Or.inr ⟨x, by simp, h2.symm, rfl⟩)
        · exact Or.inr (Or.inl (by simp [h]))
      · rw [if_neg h2] at hb
        rcases List.mem_cons.1 hb with rfl | h
        · exact Or.inr (Or.inl (by simp))
        · rcases ih b h with h | h | ⟨y, hy, hcol, hb'⟩
          · exact Or.inl h
          · exact Or.inr (Or.inl (by simp [h]))
          · exact Or.inr (Or.inr ⟨y, by simp [hy], hcol, hb'⟩)

/-- Every cell of an insertion result has the new cell's column or was
already present. -/
theorem insertCellSorted_cols (xs : List lxw_cell) (c : lxw_cell) :
    ∀ b ∈ insertCellSorted xs c, b.col_num = c.col_num ∨ b ∈ xs := by
  intro b hb
  rcases insertCellSorted_subset xs c b hb with rfl | h | ⟨x, hx, hcol, rfl⟩
  · exact Or.inl rfl
  · exact Or.inr h
  · exact Or.inl hcol

/-- Every cell of an insertion result carries the common row number. -/
theorem insertCellSorted_rows (xs : List lxw_cell) (c : lxw_cell) (row : Nat)
    (hc : c.row_num = row) (hxs : ∀ b ∈ xs, b.row_num = row) :
    ∀ b ∈ insertCellSorted xs c, b.row_num = row := by
  intro b hb
  rcases insertCellSorted_subset xs c b hb with rfl | h | ⟨x, hx, hcol, rfl⟩
  · exact hc
  · exact hxs b h
  · exact hxs x hx

/-- Insertion preserves the strict ascending order of the cell list. -/
theorem insertCellSorted_pairwise (xs : List lxw_cell) (c : lxw_cell)
    (h : List.Pairwise (fun a b => a.col_num < b.col_num) xs) :
    List.Pairwise (fun a b => a.col_num < b.col_num) (insertCellSorted xs c) := by
  induction xs with
  | nil => simp [insertCellSorted]
  | cons x rest ih =>
    rcases List.pairwise_cons.1 h with ⟨hx, hrest⟩
    unfold insertCellSorted
    by_cases h1 : c.col_num < x.col_num
    · rw [if_pos h1]
      refine List.pairwise_cons.2 ⟨?_, h⟩
      intro b hb
      rcases List.mem_cons.1 hb with rfl | hmem
      · exact h1
      · exact lt_trans h1 (hx b hmem)
    · rw [if_neg h1]
      by_cases h2 : c.col_num = x.col_num
      · rw [if_pos h2]
        refine List.pairwise_cons.2 ⟨?_, hrest⟩
        intro b hb
        simpa using hx b hb
      · rw [if_neg h2]
        have hgt : x.col_num < c.col_num := by omega
        refine List.pairwise_cons.2 ⟨?_, ih hrest⟩
        intro b hb
        rcases insertCellSorted_cols rest c b hb with hcol | hmem
        · rw [hcol]; exact hgt
        · exact hx b hmem

/-- Rows of an insertion result: the fresh singleton row, an old row, or
an old row of the inserted row number with the cell inserted. -/
theorem insertRowSorted_subset (t : List lxw_row) (row : Nat) (c : lxw_cell) :
    ∀ r ∈ insertRowSorted t row c,
      r = { row_num := row, cells := [c] } ∨ r ∈ t ∨
      ∃ x, x ∈ t ∧ x.row_num = row ∧
        r = { x with cells := insertCellSorted x.cells c } := by
  induction t with
  | nil =>
    intro r hr
    simp only [insertRowSorted, List.mem_singleton] at hr
    exact Or.inl hr
  | cons x rest ih =>
    intro r hr
    unfold insertRowSorted at hr
    by_cases h1 : row < x.row_num
    · rw [if_pos h1] at hr
      rcases List.mem_cons.1 hr with rfl | h
      · exact Or.inl rfl
      · exact Or.inr (Or.inl h)
    · rw [if_neg h1] at hr
      by_cases h2 : row = x.row_num
      · rw [if_pos h2] at hr
        rcases List.mem_cons.1 hr with rfl | h
        · exact Or.inr (Or.inr ⟨x, by simp, h2.symm, rfl⟩)
        · exact Or.inr (Or.inl (by simp [h]))
      · rw [if_neg h2] at hr
        rcases List.mem_cons.1 hr with rfl | h
        · exact Or.inr (Or.inl (by simp))
        · rcases ih r h with h | h | ⟨y, hy, hrow, hr'⟩
          · exact Or.inl h
          · exact Or.inr (Or.inl (by simp [h]))
          · exact Or.inr (Or.inr ⟨y, by simp [hy], hrow, hr'⟩)

/-- Every row of an insertion result has the inserted row number or was
already present. -/
theorem insertRowSorted_rownums (t : List lxw_row) (row : Nat) (c : lxw_cell) :
    ∀ r ∈ insertRowSorted t row c, r.row_num = row ∨ r ∈ t := by
  intro r hr
  rcases insertRowSorted_subset t row c r hr with rfl | h | ⟨x, hx, hrow, rfl⟩
  · exact Or.inl rfl
  · exact Or.inr h
  · exact Or.inl hrow

/-- Insertion preserves the strict ascending order of the row table. -/
theorem insertRowSorted_pairwise (t : List lxw_row) (row : Nat) (c : lxw_cell)
    (h : List.Pairwise (fun a b => a.row_num < b.row_num) t) :
    List.Pairwise (fun a b => a.row_num < b.row_num) (insertRowSorted t row c) := by
  induction t with
  | nil => simp [insertRowSorted]
  | cons x rest ih =>
    rcases List.pairwise_cons.1 h with ⟨hx, hrest⟩
    unfold insertRowSorted
    by_cases h1 : row < x.row_num
    · rw [if_pos h1]
      refine List.pairwise_cons.2 ⟨?_, h⟩
      intro b hb
      rcases List.mem_cons.1 hb with rfl | hmem
      · exact h1
      · exact lt_trans h1 (hx b hmem)
    · rw [if_neg h1]
      by_cases h2 : row = x.row_num
      · rw [if_pos h2]
        refine List.pairwise_cons.2 ⟨?_, hrest⟩
        intro b hb
        simpa using hx b hb
      · rw [if_neg h2]
        have hgt : x.row_num < row := by omega
        refine List.pairwise_cons.2 ⟨?_, ih hrest⟩
        intro b hb
        rcases insertRowSorted_rownums rest row c b hb with hrow | hmem
        · rw [hrow]; exact hgt
        · exact hx b hmem

/-- Insertion of a correctly labelled cell preserves well-formedness. -/
theorem tableWF_insert (t : List lxw_row) (row : Nat) (c : lxw_cell)
    (hWF : tableWF t) (hc : c.row_num = row) :
    tableWF (insertRowSorted t row c) := by
  obtain ⟨hp, hr⟩ := hWF
  refine ⟨insertRowSorted_pairwise t row c hp, ?_⟩
  intro r hrmem
  rcases insertRowSorted_subset t row c r hrmem with rfl | h | ⟨x, hx, hrow, rfl⟩
  · exact ⟨by simp, by simp [hc]⟩
  · exact hr r h
  · refine ⟨insertCellSorted_pairwise x.cells c (hr x hx).1, ?_⟩
    intro b hb
    exact insertCellSorted_rows x.cells c x.row_num (by rw [hc, hrow])
      (hr x hx).2 b hb

/-- Read-back of the inserted column finds the inserted cell. -/
theorem find?_insertCellSorted_self (xs : List lxw_cell) (c : lxw_cell)
    (hrow : ∀ b ∈ xs, b.row_num = c.row_num) :
    (insertCellSorted xs c).find? (fun b => b.col_num == c.col_num) = some c := by
  induction xs with
  | nil => simp [insertCellSorted, List.find?]
  | cons x rest ih =>
    unfold insertCellSorted
    by_cases h1 : c.col_num < x.col_num
    · rw [if_pos h1]
      simp [List.find?]
    · rw [if_neg h1]
      by_cases h2 : c.col_num = x.col_num
      · rw [if_pos h2]
        have hx : x.row_num = c.row_num := hrow x (by simp)
        have hcell : ({ x with value := c.value, format := c.format } : lxw_cell) = c := by
          cases x
          cases c
          simp_all
        rw [hcell]
        simp [List.find?]
      · rw [if_neg h2]
        rw [List.find?_cons_of_neg _ (by simp only [beq_iff_eq]; omega)]
        exact ih (fun b hb => hrow b (by simp [hb]))

/-- Read-back of a different column is unchanged by insertion. -/
theorem find?_insertCellSorted_other (xs : List lxw_cell) (c : lxw_cell) (col : Nat)
    (h : col ≠ c.col_num) :
    (insertCellSorted xs c).find? (fun b => b.col_num == col) =
      xs.find? (fun b => b.col_num == col) := by
  induction xs with
  | nil =>
    simp only [insertCellSorted]
    rw [List.find?_cons_of_neg _ (by simp only [beq_iff_eq]; omega)]
  | cons x rest ih =>
    unfold insertCellSorted
    by_cases h1 : c.col_num < x.col_num
    · rw [if_pos h1, List.find?_cons_of_neg _ (by simp only [beq_iff_eq]; omega)]
    · rw [if_neg h1]
      by_cases h2 : c.col_num = x.col_num
      · rw [if_pos h2]
        have h3 : x.col_num ≠ col := by omega
        rw [List.find?_cons_of_neg _ (by simp only [beq_iff_eq]; omega), List.find?_cons_of_neg _ (by simp only [beq_iff_eq]; omega)]
      · rw [if_neg h2]
        by_cases h3 : x.col_num = col
        · rw [List.find?_cons_of_pos _ (by simp only [beq_iff_eq]; omega), List.find?_cons_of_pos _ (by simp only [beq_iff_eq]; omega)]
        · rw [List.find?_cons_of_neg _ (by simp only [beq_iff_eq]; omega), List.find?_cons_of_neg _ (by simp only [beq_iff_eq]; omega)]
          exact ih

/-- Read-back of the written coordinates after insertion. -/
theorem lookupTable_insert_self (t : List lxw_row) (row : Nat) (c : lxw_cell)
    (hr : ∀ r ∈ t, ∀ b ∈ r.cells, b.row_num = r.row_num) (hc : c.row_num = row) :
    lookupTable (insertRowSorted t row c) row c.col_num = some c := by
  induction t with
  | nil => simp [insertRowSorted, lookupTable, List.find?, insertCellSorted]
  | cons x rest ih =>
    unfold insertRowSorted
    by_cases h1 : row < x.row_num
    · rw [if_pos h1]
      simp [lookupTable, List.find?]
    · rw [if_neg h1]
      by_cases h2 : row = x.row_num
      · rw [if_pos h2]
        unfold lookupTable
        rw [List.find?_cons_of_pos _ (by simp only [beq_iff_eq]; omega)]
        exact find?_insertCellSorted_self x.cells c
          (fun b hb => by rw [hr x (by simp) b hb, ← h2, hc])
      · rw [if_neg h2]
        unfold lookupTable
        rw [List.find?_cons_of_neg _ (by simp only [beq_iff_eq]; omega)]
        exact ih (fun r hmem => hr r (by simp [hmem]))

/-- Read-back of any other coordinates is unchanged by insertion. -/
theorem lookupTable_insert_other (t : List lxw_row) (row : Nat) (c : lxw_cell)
    (r2 c2 : Nat) (hWF : tableWF t) (hc : c.row_num = row)
    (hne : r2 ≠ row ∨ c2 ≠ c.col_num) :
    lookupTable (insertRowSorted t row c) r2 c2 = lookupTable t r2 c2 := by
  induction t with
  | nil =>
    by_cases h : r2 = row
    · have hc2 : c2 ≠ c.col_num := hne.resolve_left (by simp [h])
      have hb : (c.col_num == c2) = false := by
        simp only [beq_eq_false_iff_ne]
        omega
      simp [insertRowSorted, lookupTable, List.find?, h, hb]
    · have hb : (row == r2) = false := by
        simp only [beq_eq_false_iff_ne]
        omega
      simp [insertRowSorted, lookupTable, List.find?, hb]
  | cons x rest ih =>
    obtain ⟨hp, hr⟩ := hWF
    rcases List.pairwise_cons.1 hp with ⟨hx, hprest⟩
    have hWFrest : tableWF rest := ⟨hprest, fun r hmem => hr r (by simp [hmem])⟩
    unfold insertRowSorted
    by_cases h1 : row < x.row_num
    · rw [if_pos h1]
      by_cases h : r2 = row
      · have hc2 : c2 ≠ c.col_num := hne.resolve_left (by simp [h])
        unfold lookupTable
        rw [List.find?_cons_of_pos _ (by simp only [beq_iff_eq]; omega)]
        have hnone : List.find? (fun r => r.row_num == r2) (x :: rest) = none := by
          rw [List.find?_eq_none]
          intro r hmem
          rcases List.mem_cons.1 hmem with rfl | hmem2
          · simp only [beq_iff_eq]
            omega
          · have := hx r hmem2
            simp only [beq_iff_eq]
            omega
        rw [hnone]
        have hb : (c.col_num == c2) = false := by
          simp only [beq_eq_false_iff_ne]
          omega
        simp [List.find?, hb]
      · unfold lookupTable
        rw [List.find?_cons_of_neg _ (by simp only [beq_iff_eq]; omega)]
    · rw [if_neg h1]
      by_cases h2 : row = x.row_num
      · rw [if_pos h2]
        unfold lookupTable
        by_cases h : r2 = x.row_num
        · have hr2 : r2 = row := by omega
          have hc2 : c2 ≠ c.col_num := hne.resolve_left (by simp [hr2])
          rw [List.find?_cons_of_pos _ (by simp only [beq_iff_eq]; omega), List.find?_cons_of_pos _ (by simp only [beq_iff_eq]; omega)]
          simp only [Option.bind_some]
          exact find?_insertCellSorted_other x.cells c c2 hc2
        · rw [List.find?_cons_of_neg _ (by simp only [beq_iff_eq]; omega), List.find?_cons_of_neg _ (by simp only [beq_iff_eq]; omega)]
      · rw [if_neg h2]
        unfold lookupTable
        by_cases h : x.row_num = r2
        · rw [List.find?_cons_of_pos _ (by simp only [beq_iff_eq]; omega), List.find?_cons_of_pos _ (by simp only [beq_iff_eq]; omega)]
        · rw [List.find?_cons_of_neg _ (by simp only [beq_iff_eq]; omega), List.find?_cons_of_neg _ (by simp only [beq_iff_eq]; omega)]
          exact ih hWFrest

/-! Claim theorems. -/

/-- Claim C6: for every chart type argument, `lxw_chart_new` returns a
chart whose category axis position is `"b"`, value axis position is
`"l"`, grouping is `"clustered"`, `cross_between` is `"between"`, and
whose x and y axes both have default number format `"General"`. -/
theorem claim_C6_new_chart_defaults (type : Nat) :
    (lxw_chart_new type).cat_axis_position = "b" ∧
    (lxw_chart_new type).val_axis_position = "l" ∧
    (lxw_chart_new type).grouping = "clustered" ∧
    (lxw_chart_new type).cross_between = "between" ∧
    (lxw_chart_new type).x_axis.default_num_format = "General" ∧
    (lxw_chart_new type).y_axis.default_num_format = "General" := by
  simp [lxw_chart_new]

/-- Claim C7: for every chart and pair of reference strings,
`chart_add_series` strips a leading equals sign from each reference
before storing it as that range's formula text (a reference without a
leading equals sign is stored as-is), initialises an empty data cache
for both the categories and the values range, and appends the new series
at the tail of the chart's series list; in the embedding the function is
total — the only C failure path is allocation failure. -/
theorem claim_C7_add_series (c : lxw_chart) (cats vals : String) :
    (chart_add_series c (some cats) (some vals)).2.categories.formula =
      some (if cats.data.head? = some '=' then String.mk cats.data.tail else cats) ∧
    (chart_add_series c (some cats) (some vals)).2.values.formula =
      some (if vals.data.head? = some '=' then String.mk vals.data.tail else vals) ∧
    (chart_add_series c (some cats) (some vals)).2.categories.data_cache = [] ∧
    (chart_add_series c (some cats) (some vals)).2.values.data_cache = [] ∧
    (chart_add_series c (some cats) (some vals)).1.series_list =
      c.series_list ++ [(chart_add_series c (some cats) (some vals)).2] ∧
    (chart_add_series c (some cats) (some vals)).1.type = c.type := by
  simp [chart_add_series, stripFormulaEq, lxw_chart_init_data_cache]

/-- Claim C2 counterexample: chart serialization is not a pure
projection: serializing a freshly constructed Area chart changes its
stored grouping (from the constructed `clustered` to `standard`). -/
theorem claim_C2_counterexample :
    ((lxw_chart_assemble_xml_file (lxw_chart_new LXW_CHART_AREA)).1).grouping ≠
      (lxw_chart_new LXW_CHART_AREA).grouping := by
  decide

/-- The chart state left by a full serialization pass is exactly the
state left by the chart-type dispatch: everything emitted after the plot
area reads the state without changing it. -/
theorem assemble_fst (c : lxw_chart) :
    (lxw_chart_assemble_xml_file c).1 = (_chart_write_chart_type c c.type).1 := by
  unfold lxw_chart_assemble_xml_file _chart_write_chart _chart_write_plot_area
  simp

/-- The chart-type dispatch preserves the chart type, id, series list,
`series_overlap_1` and the x axis, whatever the type argument. -/
theorem chart_type_frame (c : lxw_chart) (t : Nat) :
    (_chart_write_chart_type c t).1.type = c.type ∧
    (_chart_write_chart_type c t).1.id = c.id ∧
    (_chart_write_chart_type c t).1.series_list = c.series_list ∧
    (_chart_write_chart_type c t).1.series_overlap_1 = c.series_overlap_1 ∧
    (_chart_write_chart_type c t).1.x_axis = c.x_axis := by
  unfold _chart_write_chart_type _chart_write_area_chart _chart_write_bar_chart
    _chart_write_column_chart _chart_write_line_chart _chart_write_axis_ids
  split_ifs <;>
    simp [writeSeriesList_fst, _chart_add_axis_ids,
      apply_ite lxw_chart.type, apply_ite lxw_chart.id,
      apply_ite lxw_chart.series_list, apply_ite lxw_chart.series_overlap_1,
      apply_ite lxw_chart.x_axis]

/-- Claim C2 (amended): a serialization pass does mutate the chart model
(the dispatched type writer rewrites its type-derived fields — for an
Area chart the grouping becomes `standard` and `cross_between` becomes
`midCat` — and the stored series counter advances), while the chart
type, id, series list, `series_overlap_1` and x axis are preserved on
every pass. -/
theorem claim_C2_amended (c : lxw_chart) :
    (lxw_chart_assemble_xml_file c).1.type = c.type ∧
    (lxw_chart_assemble_xml_file c).1.id = c.id ∧
    (lxw_chart_assemble_xml_file c).1.series_list = c.series_list ∧
    (lxw_chart_assemble_xml_file c).1.series_overlap_1 = c.series_overlap_1 ∧
    (lxw_chart_assemble_xml_file c).1.x_axis = c.x_axis ∧
    ((lxw_chart_assemble_xml_file (lxw_chart_new LXW_CHART_AREA)).1.grouping =
      "standard" ∧
     (lxw_chart_assemble_xml_file (lxw_chart_new LXW_CHART_AREA)).1.cross_between =
      "midCat" ∧
     (lxw_chart_assemble_xml_file (lxw_chart_new LXW_CHART_AREA)).1.series_index =
      (lxw_chart_new LXW_CHART_AREA).series_index) := by
  obtain ⟨h1, h2, h3, h4, h5⟩ := chart_type_frame c c.type
  rw [assemble_fst]
  exact ⟨h1, h2, h3, h4, h5, by decide, by decide, by decide⟩

/-- Claim C5: serializing a chart of type Bar-Stacked-Percent sets its
grouping to `percentStacked`, `has_overlap` to true and the value (y)
axis default number format to `"0%"`; serializing a chart of type Line
sets `has_markers` to true and its grouping to `standard`. -/
theorem claim_C5_stacked_percent_and_line (c1 c2 : lxw_chart)
    (ht1 : c1.type = LXW_CHART_BAR_STACKED_PERCENT)
    (ht2 : c2.type = LXW_CHART_LINE) :
    (lxw_chart_assemble_xml_file c1).1.grouping = "percentStacked" ∧
    (lxw_chart_assemble_xml_file c1).1.has_overlap = true ∧
    (lxw_chart_assemble_xml_file c1).1.y_axis.default_num_format = "0%" ∧
    (lxw_chart_assemble_xml_file c2).1.has_markers = true ∧
    (lxw_chart_assemble_xml_file c2).1.grouping = "standard" := by
  rw [assemble_fst c1, assemble_fst c2, ht1, ht2]
  refine ⟨?_, ?_, ?_, ?_, ?_⟩ <;>
    simp [_chart_write_chart_type, _chart_write_bar_chart, _chart_write_line_chart,
      _chart_write_axis_ids, _chart_add_axis_ids, writeSeriesList_fst,
      LXW_CHART_AREA, LXW_CHART_AREA_STACKED, LXW_CHART_AREA_STACKED_PERCENT,
      LXW_CHART_BAR, LXW_CHART_BAR_STACKED, LXW_CHART_BAR_STACKED_PERCENT,
      LXW_CHART_COLUMN, LXW_CHART_COLUMN_STACKED, LXW_CHART_COLUMN_STACKED_PERCENT,
      LXW_CHART_LINE,
      apply_ite lxw_chart.grouping, apply_ite lxw_chart.has_overlap,
      apply_ite lxw_chart.y_axis, apply_ite lxw_chart.has_markers]

/-- Claim C5 witness: the two post-states at freshly constructed charts
of the two types. -/
theorem claim_C5_witness :
    (lxw_chart_assemble_xml_file (lxw_chart_new LXW_CHART_BAR_STACKED_PERCENT)).1.grouping =
      "percentStacked" ∧
    (lxw_chart_assemble_xml_file (lxw_chart_new LXW_CHART_BAR_STACKED_PERCENT)).1.has_overlap =
      true ∧
    (lxw_chart_assemble_xml_file
        (lxw_chart_new LXW_CHART_BAR_STACKED_PERCENT)).1.y_axis.default_num_format =
      "0%" ∧
    (lxw_chart_assemble_xml_file (lxw_chart_new LXW_CHART_LINE)).1.has_markers = true ∧
    (lxw_chart_assemble_xml_file (lxw_chart_new LXW_CHART_LINE)).1.grouping = "standard" :=
  claim_C5_stacked_percent_and_line (lxw_chart_new LXW_CHART_BAR_STACKED_PERCENT)
    (lxw_chart_new LXW_CHART_LINE) rfl rfl

/-- Claim C4 counterexample: for the stacked Area variant the dispatch
sets the grouping to `stacked` (not `standard` as the claim says for the
whole Area family), and it does not set the y-axis default number format
to `"0%"` (only the percent-stacked variant does). -/
theorem claim_C4_counterexample :
    (lxw_chart_assemble_xml_file (lxw_chart_new LXW_CHART_AREA_STACKED)).1.grouping ≠
      "standard" ∧
    (lxw_chart_assemble_xml_file
        (lxw_chart_new LXW_CHART_AREA_STACKED)).1.y_axis.default_num_format ≠
      "0%" := by
  constructor
  · decide
  · decide

/-- Claim C4 (amended): for every freshly constructed Area-family chart
(any series list, any id), serialization dispatch sets `cross_between`
to `midCat`, sets the grouping to `standard`, `stacked` or
`percentStacked` according to the variant, keeps the default axis
positions, sets the y-axis default number format to `"0%"` only in the
percent-stacked variant, and the emitted trace contains no `c:overlap`
and no `c:marker` element. -/
theorem claim_C4_area_family (t : Nat) (l : List lxw_chart_series) (i : Nat)
    (ht : t = LXW_CHART_AREA ∨ t = LXW_CHART_AREA_STACKED ∨
      t = LXW_CHART_AREA_STACKED_PERCENT) :
    (lxw_chart_assemble_xml_file
        { lxw_chart_new t with series_list := l, id := i }).1.cross_between = "midCat" ∧
    (lxw_chart_assemble_xml_file
        { lxw_chart_new t with series_list := l, id := i }).1.grouping =
      (if t = LXW_CHART_AREA_STACKED_PERCENT then "percentStacked"
       else if t = LXW_CHART_AREA_STACKED then "stacked" else "standard") ∧
    (lxw_chart_assemble_xml_file
        { lxw_chart_new t with series_list := l, id := i }).1.cat_axis_position = "b" ∧
    (lxw_chart_assemble_xml_file
        { lxw_chart_new t with series_list := l, id := i }).1.val_axis_position = "l" ∧
    (lxw_chart_assemble_xml_file
        { lxw_chart_new t with series_list := l, id := i }).1.y_axis.default_num_format =
      (if t = LXW_CHART_AREA_STACKED_PERCENT then "0%" else "General") ∧
    tagCount "c:overlap"
      (lxw_chart_assemble_xml_file
        { lxw_chart_new t with series_list := l, id := i }).2 = 0 ∧
    tagCount "c:marker"
      (lxw_chart_assemble_xml_file
        { lxw_chart_new t with series_list := l, id := i }).2 = 0 := by
  rcases ht with rfl | rfl | rfl <;>
    refine ⟨?_, ?_, ?_, ?_, ?_, ?_, ?_⟩ <;>
    first
    | (rw [assemble_fst]
       simp [_chart_write_chart_type, _chart_write_area_chart,
         _chart_write_axis_ids, _chart_add_axis_ids, writeSeriesList_fst,
         lxw_chart_new,
         LXW_CHART_AREA, LXW_CHART_AREA_STACKED, LXW_CHART_AREA_STACKED_PERCENT,
         LXW_CHART_BAR, LXW_CHART_BAR_STACKED, LXW_CHART_BAR_STACKED_PERCENT,
         LXW_CHART_COLUMN, LXW_CHART_COLUMN_STACKED, LXW_CHART_COLUMN_STACKED_PERCENT,
         LXW_CHART_LINE,
         apply_ite lxw_chart.cross_between, apply_ite lxw_chart.grouping,
         apply_ite lxw_chart.cat_axis_position, apply_ite lxw_chart.val_axis_position,
         apply_ite lxw_chart.y_axis])
    | simp [lxw_chart_assemble_xml_file, _chart_write_chart, _chart_write_plot_area,
        _chart_write_chart_type, _chart_write_area_chart,
        _chart_xml_declaration, _chart_write_chart_space, _chart_write_lang,
        _chart_write_layout, _chart_write_grouping, _chart_write_axis_ids,
        _chart_write_axis_id, _chart_add_axis_ids, _chart_write_cat_axis,
        _chart_write_val_axis, _chart_write_scaling, _chart_write_orientation,
        _chart_write_axis_pos, _chart_write_tick_lbl_pos, _chart_write_cross_axis,
        _chart_write_crosses, _chart_write_auto, _chart_write_lbl_algn,
        _chart_write_lbl_offset, _chart_write_major_gridlines,
        _chart_write_number_format, _chart_write_cross_between,
        _chart_write_legend, _chart_write_legend_pos, _chart_write_plot_vis_only,
        _chart_write_print_settings, _chart_write_header_footer,
        _chart_write_page_margins, _chart_write_page_setup,
        lxw_chart_new, writeSeriesList_fst,
        LXW_CHART_AREA, LXW_CHART_AREA_STACKED, LXW_CHART_AREA_STACKED_PERCENT,
        LXW_CHART_BAR, LXW_CHART_BAR_STACKED, LXW_CHART_BAR_STACKED_PERCENT,
        LXW_CHART_COLUMN, LXW_CHART_COLUMN_STACKED, LXW_CHART_COLUMN_STACKED_PERCENT,
        LXW_CHART_LINE,
        tagCount_cons, tagCount_append, tagCount_nil, isTagNamed,
        tagCount_seriesList, tagCount_marker_seriesList,
        apply_ite (tagCount "c:overlap"), apply_ite (tagCount "c:marker")]

/-- Claim C4 witness: a stacked Area chart with one (empty) series. -/
theorem claim_C4_witness :
    (lxw_chart_assemble_xml_file
        { lxw_chart_new LXW_CHART_AREA_STACKED with
            series_list := [emptySeries], id := 7 }).1.cross_between = "midCat" :=
  (claim_C4_area_family LXW_CHART_AREA_STACKED [emptySeries] 7
    (Or.inr (Or.inl rfl))).1

/-- Claim C10: `series_overlap_1` is fixed at 100 by chart construction
and never modified; for a freshly constructed chart (any series list,
any id) the serialized trace contains exactly one `c:overlap`, with
value 100, precisely when the type is a stacked or percent-stacked Bar
or Column variant, and no `c:overlap` otherwise. -/
theorem claim_C10_overlap (t : Nat) (l : List lxw_chart_series) (i : Nat) :
    (lxw_chart_new t).series_overlap_1 = 100 ∧
    (lxw_chart_assemble_xml_file
        { lxw_chart_new t with series_list := l, id := i }).1.series_overlap_1 = 100 ∧
    valsOfTag "c:overlap"
      (lxw_chart_assemble_xml_file
        { lxw_chart_new t with series_list := l, id := i }).2 =
      (if t = LXW_CHART_BAR_STACKED ∨ t = LXW_CHART_BAR_STACKED_PERCENT ∨
          t = LXW_CHART_COLUMN_STACKED ∨ t = LXW_CHART_COLUMN_STACKED_PERCENT
       then ["100"] else []) := by
  refine ⟨by simp [lxw_chart_new], ?_, ?_⟩
  · rw [assemble_fst]
    have h := (chart_type_frame { lxw_chart_new t with series_list := l, id := i }
      ({ lxw_chart_new t with series_list := l, id := i } : lxw_chart).type).2.2.2.1
    rw [h]
    simp [lxw_chart_new]
  · by_cases hA : t = LXW_CHART_AREA ∨ t = LXW_CHART_AREA_STACKED ∨
        t = LXW_CHART_AREA_STACKED_PERCENT
    case pos =>
      rcases hA with rfl | rfl | rfl <;>
        simp [lxw_chart_assemble_xml_file, _chart_write_chart, _chart_write_plot_area,
          _chart_write_chart_type, _chart_write_area_chart,
          _chart_xml_declaration, _chart_write_chart_space, _chart_write_lang,
          _chart_write_layout, _chart_write_grouping, _chart_write_axis_ids,
          _chart_write_axis_id, _chart_add_axis_ids, _chart_write_cat_axis,
          _chart_write_val_axis, _chart_write_scaling, _chart_write_orientation,
          _chart_write_axis_pos, _chart_write_tick_lbl_pos, _chart_write_cross_axis,
          _chart_write_crosses, _chart_write_auto, _chart_write_lbl_algn,
          _chart_write_lbl_offset, _chart_write_major_gridlines,
          _chart_write_number_format, _chart_write_cross_between,
          _chart_write_legend, _chart_write_legend_pos, _chart_write_plot_vis_only,
          _chart_write_print_settings, _chart_write_header_footer,
          _chart_write_page_margins, _chart_write_page_setup,
          lxw_chart_new, writeSeriesList_fst,
          LXW_CHART_AREA, LXW_CHART_AREA_STACKED, LXW_CHART_AREA_STACKED_PERCENT,
          LXW_CHART_BAR, LXW_CHART_BAR_STACKED, LXW_CHART_BAR_STACKED_PERCENT,
          LXW_CHART_COLUMN, LXW_CHART_COLUMN_STACKED, LXW_CHART_COLUMN_STACKED_PERCENT,
          LXW_CHART_LINE,
          valsOfTag_cons, valsOfTag_append, valsOfTag_nil, valOf, Option.toList,
          valsOfTag_seriesList, apply_ite (valsOfTag "c:overlap")]
    case neg =>
      by_cases hB : t = LXW_CHART_BAR ∨ t = LXW_CHART_BAR_STACKED ∨
          t = LXW_CHART_BAR_STACKED_PERCENT
      case pos =>
        rcases hB with rfl | rfl | rfl <;>
          simp [lxw_chart_assemble_xml_file, _chart_write_chart, _chart_write_plot_area,
            _chart_write_chart_type, _chart_write_bar_chart, _chart_write_bar_dir,
            _chart_xml_declaration, _chart_write_chart_space, _chart_write_lang,
            _chart_write_layout, _chart_write_grouping, _chart_write_axis_ids,
            _chart_write_axis_id, _chart_add_axis_ids, _chart_write_cat_axis,
            _chart_write_val_axis, _chart_write_scaling, _chart_write_orientation,
            _chart_write_axis_pos, _chart_write_tick_lbl_pos, _chart_write_cross_axis,
            _chart_write_crosses, _chart_write_auto, _chart_write_lbl_algn,
            _chart_write_lbl_offset, _chart_write_major_gridlines,
            _chart_write_number_format, _chart_write_cross_between,
            _chart_write_legend, _chart_write_legend_pos, _chart_write_plot_vis_only,
            _chart_write_print_settings, _chart_write_header_footer,
            _chart_write_page_margins, _chart_write_page_setup,
            _chart_write_overlap,
            lxw_chart_new, writeSeriesList_fst,
            LXW_CHART_AREA, LXW_CHART_AREA_STACKED, LXW_CHART_AREA_STACKED_PERCENT,
            LXW_CHART_BAR, LXW_CHART_BAR_STACKED, LXW_CHART_BAR_STACKED_PERCENT,
            LXW_CHART_COLUMN, LXW_CHART_COLUMN_STACKED, LXW_CHART_COLUMN_STACKED_PERCENT,
            LXW_CHART_LINE,
            valsOfTag_cons, valsOfTag_append, valsOfTag_nil, valOf, Option.toList,
            List.lookup, valsOfTag_seriesList, apply_ite (valsOfTag "c:overlap")] <;>
          decide
      case neg =>
        by_cases hC : t = LXW_CHART_COLUMN ∨ t = LXW_CHART_COLUMN_STACKED ∨
            t = LXW_CHART_COLUMN_STACKED_PERCENT
        case pos =>
          rcases hC with rfl | rfl | rfl <;>
            simp [lxw_chart_assemble_xml_file, _chart_write_chart, _chart_write_plot_area,
              _chart_write_chart_type, _chart_write_column_chart, _chart_write_bar_dir,
              _chart_xml_declaration, _chart_write_chart_space, _chart_write_lang,
              _chart_write_layout, _chart_write_grouping, _chart_write_axis_ids,
              _chart_write_axis_id, _chart_add_axis_ids, _chart_write_cat_axis,
              _chart_write_val_axis, _chart_write_scaling, _chart_write_orientation,
              _chart_write_axis_pos, _chart_write_tick_lbl_pos, _chart_write_cross_axis,
              _chart_write_crosses, _chart_write_auto, _chart_write_lbl_algn,
              _chart_write_lbl_offset, _chart_write_major_gridlines,
              _chart_write_number_format, _chart_write_cross_between,
              _chart_write_legend, _chart_write_legend_pos, _chart_write_plot_vis_only,
              _chart_write_print_settings, _chart_write_header_footer,
              _chart_write_page_margins, _chart_write_page_setup,
              _chart_write_overlap,
              lxw_chart_new, writeSeriesList_fst,
              LXW_CHART_AREA, LXW_CHART_AREA_STACKED, LXW_CHART_AREA_STACKED_PERCENT,
              LXW_CHART_BAR, LXW_CHART_BAR_STACKED, LXW_CHART_BAR_STACKED_PERCENT,
              LXW_CHART_COLUMN, LXW_CHART_COLUMN_STACKED, LXW_CHART_COLUMN_STACKED_PERCENT,
              LXW_CHART_LINE,
              valsOfTag_cons, valsOfTag_append, valsOfTag_nil, valOf, Option.toList,
              List.lookup, valsOfTag_seriesList, apply_ite (valsOfTag "c:overlap")] <;>
            decide
        case neg =>
          by_cases hD : t = LXW_CHART_LINE
          case pos =>
            subst hD
            simp [lxw_chart_assemble_xml_file, _chart_write_chart, _chart_write_plot_area,
              _chart_write_chart_type, _chart_write_line_chart, _chart_write_marker_value,
              _chart_xml_declaration, _chart_write_chart_space, _chart_write_lang,
              _chart_write_layout, _chart_write_grouping, _chart_write_axis_ids,
              _chart_write_axis_id, _chart_add_axis_ids, _chart_write_cat_axis,
              _chart_write_val_axis, _chart_write_scaling, _chart_write_orientation,
              _chart_write_axis_pos, _chart_write_tick_lbl_pos, _chart_write_cross_axis,
              _chart_write_crosses, _chart_write_auto, _chart_write_lbl_algn,
              _chart_write_lbl_offset, _chart_write_major_gridlines,
              _chart_write_number_format, _chart_write_cross_between,
              _chart_write_legend, _chart_write_legend_pos, _chart_write_plot_vis_only,
              _chart_write_print_settings, _chart_write_header_footer,
              _chart_write_page_margins, _chart_write_page_setup,
              lxw_chart_new, writeSeriesList_fst,
              LXW_CHART_AREA, LXW_CHART_AREA_STACKED, LXW_CHART_AREA_STACKED_PERCENT,
              LXW_CHART_BAR, LXW_CHART_BAR_STACKED, LXW_CHART_BAR_STACKED_PERCENT,
              LXW_CHART_COLUMN, LXW_CHART_COLUMN_STACKED, LXW_CHART_COLUMN_STACKED_PERCENT,
              LXW_CHART_LINE,
              valsOfTag_cons, valsOfTag_append, valsOfTag_nil, valOf, Option.toList,
              valsOfTag_seriesList, apply_ite (valsOfTag "c:overlap")]
          case neg =>
            simp only [LXW_CHART_AREA, LXW_CHART_AREA_STACKED,
              LXW_CHART_AREA_STACKED_PERCENT, LXW_CHART_BAR, LXW_CHART_BAR_STACKED,
              LXW_CHART_BAR_STACKED_PERCENT, LXW_CHART_COLUMN, LXW_CHART_COLUMN_STACKED,
              LXW_CHART_COLUMN_STACKED_PERCENT, LXW_CHART_LINE, not_or] at hA hB hC hD ⊢
            obtain ⟨hA1, hA2, hA3⟩ := hA
            obtain ⟨hB1, hB2, hB3⟩ := hB
            obtain ⟨hC1, hC2, hC3⟩ := hC
            rw [if_neg (by omega)]
            simp [lxw_chart_assemble_xml_file, _chart_write_chart, _chart_write_plot_area,
              _chart_write_chart_type,
              _chart_xml_declaration, _chart_write_chart_space, _chart_write_lang,
              _chart_write_layout, _chart_write_axis_id, _chart_write_cat_axis,
              _chart_write_val_axis, _chart_write_scaling, _chart_write_orientation,
              _chart_write_axis_pos, _chart_write_tick_lbl_pos, _chart_write_cross_axis,
              _chart_write_crosses, _chart_write_auto, _chart_write_lbl_algn,
              _chart_write_lbl_offset, _chart_write_major_gridlines,
              _chart_write_number_format, _chart_write_cross_between,
              _chart_write_legend, _chart_write_legend_pos, _chart_write_plot_vis_only,
              _chart_write_print_settings, _chart_write_header_footer,
              _chart_write_page_margins, _chart_write_page_setup,
              LXW_CHART_AREA, LXW_CHART_AREA_STACKED, LXW_CHART_AREA_STACKED_PERCENT,
              LXW_CHART_BAR, LXW_CHART_BAR_STACKED, LXW_CHART_BAR_STACKED_PERCENT,
              LXW_CHART_COLUMN, LXW_CHART_COLUMN_STACKED, LXW_CHART_COLUMN_STACKED_PERCENT,
              LXW_CHART_LINE,
              lxw_chart_new, hA1, hA2, hA3, hB1, hB2, hB3, hC1, hC2, hC3, hD,
              valsOfTag_cons, valsOfTag_append, valsOfTag_nil, valOf, Option.toList]

/-- Claim C8: for a chart whose type is not one of the recognized
Area/Bar/Column/Line constants, serialization emits exactly one
non-fatal warning, runs to completion and produces a well-nested trace
whose plot area contains no chart-type sub-element (no `c:areaChart`,
`c:barChart` or `c:lineChart`). -/
theorem claim_C8_unknown_type (c : lxw_chart)
    (ht : ¬recognizedChartType c.type) :
    warnCount (lxw_chart_assemble_xml_file c).2 = 1 ∧
    tagCount "c:areaChart" (lxw_chart_assemble_xml_file c).2 = 0 ∧
    tagCount "c:barChart" (lxw_chart_assemble_xml_file c).2 = 0 ∧
    tagCount "c:lineChart" (lxw_chart_assemble_xml_file c).2 = 0 ∧
    balanced (lxw_chart_assemble_xml_file c).2 = true := by
  simp only [recognizedChartType, not_or] at ht
  obtain ⟨n1, n2, n3, n4, n5, n6, n7, n8, n9, n10⟩ := ht
  have hdis : _chart_write_chart_type c c.type =
      (c, [.warning ("workbook_add_chart(): unhandled chart type " ++
        toString c.type)]) := by
    unfold _chart_write_chart_type
    rw [if_neg (by tauto), if_neg (by tauto), if_neg (by tauto), if_neg n10]
  have hbal : balanced (lxw_chart_assemble_xml_file c).2 = true := by
    by_cases hcf : c.cat_has_num_fmt <;>
      simp [lxw_chart_assemble_xml_file, _chart_write_chart, _chart_write_plot_area,
        hdis, hcf,
        _chart_xml_declaration, _chart_write_chart_space, _chart_write_lang,
        _chart_write_layout, _chart_write_axis_id, _chart_write_cat_axis,
        _chart_write_val_axis, _chart_write_scaling, _chart_write_orientation,
        _chart_write_axis_pos, _chart_write_tick_lbl_pos, _chart_write_cross_axis,
        _chart_write_crosses, _chart_write_auto, _chart_write_lbl_algn,
        _chart_write_lbl_offset, _chart_write_major_gridlines,
        _chart_write_number_format, _chart_write_cross_between,
        _chart_write_legend, _chart_write_legend_pos, _chart_write_plot_vis_only,
        _chart_write_print_settings, _chart_write_header_footer,
        _chart_write_page_margins, _chart_write_page_setup,
        balanced, balancedAux]
  refine ⟨?_, ?_, ?_, ?_, hbal⟩ <;>
    simp [lxw_chart_assemble_xml_file, _chart_write_chart, _chart_write_plot_area,
        hdis,
        _chart_xml_declaration, _chart_write_chart_space, _chart_write_lang,
        _chart_write_layout, _chart_write_axis_id, _chart_write_cat_axis,
        _chart_write_val_axis, _chart_write_scaling, _chart_write_orientation,
        _chart_write_axis_pos, _chart_write_tick_lbl_pos, _chart_write_cross_axis,
        _chart_write_crosses, _chart_write_auto, _chart_write_lbl_algn,
        _chart_write_lbl_offset, _chart_write_major_gridlines,
        _chart_write_number_format, _chart_write_cross_between,
        _chart_write_legend, _chart_write_legend_pos, _chart_write_plot_vis_only,
        _chart_write_print_settings, _chart_write_header_footer,
        _chart_write_page_margins, _chart_write_page_setup,
        warnCount_cons, warnCount_append, warnCount_nil, isWarning,
        tagCount_cons, tagCount_append, tagCount_nil, isTagNamed,
        apply_ite (warnCount), apply_ite (tagCount "c:areaChart"),
        apply_ite (tagCount "c:barChart"), apply_ite (tagCount "c:lineChart")]

/-- Claim C8 witness: a chart of the unhandled type `LXW_CHART_NONE`. -/
theorem claim_C8_witness :
    warnCount (lxw_chart_assemble_xml_file (lxw_chart_new LXW_CHART_NONE)).2 = 1 ∧
    balanced (lxw_chart_assemble_xml_file (lxw_chart_new LXW_CHART_NONE)).2 = true :=
  ⟨(claim_C8_unknown_type (lxw_chart_new LXW_CHART_NONE) (by decide)).1,
   (claim_C8_unknown_type (lxw_chart_new LXW_CHART_NONE) (by decide)).2.2.2.2⟩

/-- Unfolding `idxList` when the counter never wraps: the emitted
values are the successive numerals. -/
theorem idxList_eq_range (si n : Nat) (h : si + n ≤ UINT16_MOD) :
    idxList si n = (List.range n).map (fun j => toString (si + j)) := by
  induction n generalizing si with
  | zero => simp [idxList]
  | succ n ih =>
    rcases Nat.lt_or_ge (si + 1) UINT16_MOD with hlt | hge
    · rw [idxList, Nat.mod_eq_of_lt hlt, ih (si + 1) (by omega),
        List.range_succ_eq_map, List.map_cons, List.map_map]
      refine congrArg₂ List.cons (by simp) ?_
      apply List.map_congr_left
      intro j hj
      have hadd : si + 1 + j = si + (j + 1) := by omega
      simp [Function.comp, hadd]
    · have hn : n = 0 := by omega
      subst hn
      rw [show List.range 1 = [0] from rfl]
      simp [idxList]

/-- For every recognized chart type the dispatch advances the stored
series counter once per series of the chart. -/
theorem dispatch_series_index (c : lxw_chart) (t : Nat)
    (ht : recognizedChartType t) :
    (_chart_write_chart_type c t).1.series_index =
      siAfter c.series_index c.series_list.length := by
  rcases ht with rfl | rfl | rfl | rfl | rfl | rfl | rfl | rfl | rfl | rfl <;>
    simp [_chart_write_chart_type, _chart_write_area_chart, _chart_write_bar_chart,
      _chart_write_column_chart, _chart_write_line_chart, _chart_write_axis_ids,
      _chart_add_axis_ids, writeSeriesList_fst,
      LXW_CHART_AREA, LXW_CHART_AREA_STACKED, LXW_CHART_AREA_STACKED_PERCENT,
      LXW_CHART_BAR, LXW_CHART_BAR_STACKED, LXW_CHART_BAR_STACKED_PERCENT,
      LXW_CHART_COLUMN, LXW_CHART_COLUMN_STACKED, LXW_CHART_COLUMN_STACKED_PERCENT,
      LXW_CHART_LINE,
      apply_ite lxw_chart.series_index]

/-- For every recognized chart type the dispatch allocates the axis ids
exactly when `axis_id_1` is still zero, and leaves them alone
otherwise. -/
theorem dispatch_axis_ids (c : lxw_chart) (t : Nat)
    (ht : recognizedChartType t) :
    (_chart_write_chart_type c t).1.axis_id_1 =
      (if c.axis_id_1 = 0 then ((50010000 + c.id) % UINT32_MOD + 1) % UINT32_MOD
       else c.axis_id_1) ∧
    (_chart_write_chart_type c t).1.axis_id_2 =
      (if c.axis_id_1 = 0 then
        (((50010000 + c.id) % UINT32_MOD + 1) % UINT32_MOD + 1) % UINT32_MOD
       else c.axis_id_2) := by
  rcases ht with rfl | rfl | rfl | rfl | rfl | rfl | rfl | rfl | rfl | rfl <;>
    refine ⟨?_, ?_⟩ <;>
    simp [_chart_write_chart_type, _chart_write_area_chart, _chart_write_bar_chart,
      _chart_write_column_chart, _chart_write_line_chart, _chart_write_axis_ids,
      _chart_add_axis_ids, writeSeriesList_fst,
      LXW_CHART_AREA, LXW_CHART_AREA_STACKED, LXW_CHART_AREA_STACKED_PERCENT,
      LXW_CHART_BAR, LXW_CHART_BAR_STACKED, LXW_CHART_BAR_STACKED_PERCENT,
      LXW_CHART_COLUMN, LXW_CHART_COLUMN_STACKED, LXW_CHART_COLUMN_STACKED_PERCENT,
      LXW_CHART_LINE,
      apply_ite lxw_chart.axis_id_1, apply_ite lxw_chart.axis_id_2]

/-- For every recognized chart type the `c:idx` and `c:order` values of
a pass are the successive values of the stored series counter. -/
theorem assemble_idx_vals (c : lxw_chart) (ht : recognizedChartType c.type) :
    valsOfTag "c:idx" (lxw_chart_assemble_xml_file c).2 =
      idxList c.series_index c.series_list.length ∧
    valsOfTag "c:order" (lxw_chart_assemble_xml_file c).2 =
      idxList c.series_index c.series_list.length := by
  rcases ht with h | h | h | h | h | h | h | h | h | h <;>
    refine ⟨?_, ?_⟩ <;>
    simp [lxw_chart_assemble_xml_file, _chart_write_chart, _chart_write_plot_area,
      _chart_write_chart_type, _chart_write_area_chart, _chart_write_bar_chart,
      _chart_write_column_chart, _chart_write_line_chart, _chart_write_bar_dir,
      _chart_write_marker_value, _chart_write_overlap,
      _chart_xml_declaration, _chart_write_chart_space, _chart_write_lang,
      _chart_write_layout, _chart_write_grouping, _chart_write_axis_ids,
      _chart_write_axis_id, _chart_add_axis_ids, _chart_write_cat_axis,
      _chart_write_val_axis, _chart_write_scaling, _chart_write_orientation,
      _chart_write_axis_pos, _chart_write_tick_lbl_pos, _chart_write_cross_axis,
      _chart_write_crosses, _chart_write_auto, _chart_write_lbl_algn,
      _chart_write_lbl_offset, _chart_write_major_gridlines,
      _chart_write_number_format, _chart_write_cross_between,
      _chart_write_legend, _chart_write_legend_pos, _chart_write_plot_vis_only,
      _chart_write_print_settings, _chart_write_header_footer,
      _chart_write_page_margins, _chart_write_page_setup,
      h, writeSeriesList_fst,
      LXW_CHART_AREA, LXW_CHART_AREA_STACKED, LXW_CHART_AREA_STACKED_PERCENT,
      LXW_CHART_BAR, LXW_CHART_BAR_STACKED, LXW_CHART_BAR_STACKED_PERCENT,
      LXW_CHART_COLUMN, LXW_CHART_COLUMN_STACKED, LXW_CHART_COLUMN_STACKED_PERCENT,
      LXW_CHART_LINE,
      valsOfTag_cons, valsOfTag_append, valsOfTag_nil, valOf, Option.toList,
      valsOfTag_idx_seriesList, valsOfTag_order_seriesList,
      apply_ite (valsOfTag "c:idx"), apply_ite (valsOfTag "c:order")]

/-- For every recognized chart type a pass emits `c:axId` four times
(twice in the chart-type element, once per axis definition), always with
the post-allocation axis ids. -/
theorem assemble_axid_vals (c : lxw_chart) (ht : recognizedChartType c.type) :
    valsOfTag "c:axId" (lxw_chart_assemble_xml_file c).2 =
      [toString (lxw_chart_assemble_xml_file c).1.axis_id_1,
       toString (lxw_chart_assemble_xml_file c).1.axis_id_2,
       toString (lxw_chart_assemble_xml_file c).1.axis_id_1,
       toString (lxw_chart_assemble_xml_file c).1.axis_id_2] := by
  rcases ht with h | h | h | h | h | h | h | h | h | h <;>
    simp [lxw_chart_assemble_xml_file, _chart_write_chart, _chart_write_plot_area,
      _chart_write_chart_type, _chart_write_area_chart, _chart_write_bar_chart,
      _chart_write_column_chart, _chart_write_line_chart, _chart_write_bar_dir,
      _chart_write_marker_value, _chart_write_overlap,
      _chart_xml_declaration, _chart_write_chart_space, _chart_write_lang,
      _chart_write_layout, _chart_write_grouping, _chart_write_axis_ids,
      _chart_write_axis_id, _chart_add_axis_ids, _chart_write_cat_axis,
      _chart_write_val_axis, _chart_write_scaling, _chart_write_orientation,
      _chart_write_axis_pos, _chart_write_tick_lbl_pos, _chart_write_cross_axis,
      _chart_write_crosses, _chart_write_auto, _chart_write_lbl_algn,
      _chart_write_lbl_offset, _chart_write_major_gridlines,
      _chart_write_number_format, _chart_write_cross_between,
      _chart_write_legend, _chart_write_legend_pos, _chart_write_plot_vis_only,
      _chart_write_print_settings, _chart_write_header_footer,
      _chart_write_page_margins, _chart_write_page_setup,
      h, writeSeriesList_fst,
      LXW_CHART_AREA, LXW_CHART_AREA_STACKED, LXW_CHART_AREA_STACKED_PERCENT,
      LXW_CHART_BAR, LXW_CHART_BAR_STACKED, LXW_CHART_BAR_STACKED_PERCENT,
      LXW_CHART_COLUMN, LXW_CHART_COLUMN_STACKED, LXW_CHART_COLUMN_STACKED_PERCENT,
      LXW_CHART_LINE,
      valsOfTag_cons, valsOfTag_append, valsOfTag_nil, valOf, Option.toList,
      valsOfTag_seriesList,
      apply_ite (valsOfTag "c:axId"), apply_ite lxw_chart.axis_id_1,
      apply_ite lxw_chart.axis_id_2, apply_ite toString]

/-- Claim C3 counterexample: the series index is stored chart state, not
derived positionally per pass: for a Line chart with one series, the
second serialization pass emits the (single, zero-th) series with
`c:idx` value `"1"`, not `"0"`. -/
theorem claim_C3_counterexample :
    valsOfTag "c:idx"
        (lxw_chart_assemble_xml_file
          (lxw_chart_assemble_xml_file
            { lxw_chart_new LXW_CHART_LINE with series_list := [emptySeries] }).1).2 ≠
      ["0"] ∧
    valsOfTag "c:idx"
        (lxw_chart_assemble_xml_file
          (lxw_chart_assemble_xml_file
            { lxw_chart_new LXW_CHART_LINE with series_list := [emptySeries] }).1).2 =
      ["1"] := by
  constructor
  · decide
  · decide

/-- Claim C3 (amended): `c:idx` and `c:order` come from a stored
per-chart counter that is advanced by serialization and not reset: on a
pass that starts with counter 0 (and at most 65536 series) the i-th
series in registration order is emitted with `idx = order = i`, and the
pass leaves the advanced counter behind in the chart. -/
theorem claim_C3_series_idx (c : lxw_chart) (ht : recognizedChartType c.type)
    (h0 : c.series_index = 0) (hn : c.series_list.length ≤ UINT16_MOD) :
    valsOfTag "c:idx" (lxw_chart_assemble_xml_file c).2 =
      (List.range c.series_list.length).map (fun j => toString j) ∧
    valsOfTag "c:order" (lxw_chart_assemble_xml_file c).2 =
      (List.range c.series_list.length).map (fun j => toString j) ∧
    (lxw_chart_assemble_xml_file c).1.series_index =
      siAfter c.series_index c.series_list.length := by
  obtain ⟨hidx, hord⟩ := assemble_idx_vals c ht
  refine ⟨?_, ?_, ?_⟩
  · rw [hidx, h0, idxList_eq_range 0 _ (by omega)]
    simp
  · rw [hord, h0, idxList_eq_range 0 _ (by omega)]
    simp
  · rw [assemble_fst]
    exact dispatch_series_index c c.type ht

/-- Claim C3 witness: the first pass over a fresh two-series Line chart
emits idx values 0 and 1. -/
theorem claim_C3_witness :
    valsOfTag "c:idx"
        (lxw_chart_assemble_xml_file
          { lxw_chart_new LXW_CHART_LINE with
              series_list := [emptySeries, emptySeries] }).2 = ["0", "1"] := by
  have h := (claim_C3_series_idx
    { lxw_chart_new LXW_CHART_LINE with series_list := [emptySeries, emptySeries] }
    (by decide) rfl (by decide)).1
  rw [h]
  decide

/-- Claim C1: for every chart of a recognized type whose axis ids are
unset (and whose id stays clear of `uint32` wrap-around), the first
serialization pass allocates `axis_id_1 = 50_010_000 + id + 1` and
`axis_id_2 = axis_id_1 + 1` and stores both; a second pass leaves the
stored ids unchanged and emits exactly the same `c:axId` values. -/
theorem claim_C1_axis_ids (c : lxw_chart) (h0 : c.axis_id_1 = 0)
    (hid : 50010000 + c.id + 2 < UINT32_MOD) (ht : recognizedChartType c.type) :
    (lxw_chart_assemble_xml_file c).1.axis_id_1 = 50010000 + c.id + 1 ∧
    (lxw_chart_assemble_xml_file c).1.axis_id_2 = 50010000 + c.id + 2 ∧
    (lxw_chart_assemble_xml_file
      (lxw_chart_assemble_xml_file c).1).1.axis_id_1 = 50010000 + c.id + 1 ∧
    (lxw_chart_assemble_xml_file
      (lxw_chart_assemble_xml_file c).1).1.axis_id_2 = 50010000 + c.id + 2 ∧
    valsOfTag "c:axId"
        (lxw_chart_assemble_xml_file (lxw_chart_assemble_xml_file c).1).2 =
      valsOfTag "c:axId" (lxw_chart_assemble_xml_file c).2 := by
  simp only [UINT32_MOD] at hid
  have ha := dispatch_axis_ids c c.type ht
  have h1 : (lxw_chart_assemble_xml_file c).1.axis_id_1 = 50010000 + c.id + 1 := by
    rw [assemble_fst, ha.1, if_pos h0]
    simp only [UINT32_MOD]
    omega
  have h2 : (lxw_chart_assemble_xml_file c).1.axis_id_2 = 50010000 + c.id + 2 := by
    rw [assemble_fst, ha.2, if_pos h0]
    simp only [UINT32_MOD]
    omega
  have hframe := chart_type_frame c c.type
  have htype1 : (lxw_chart_assemble_xml_file c).1.type = c.type := by
    rw [assemble_fst]
    exact hframe.1
  have hid1 : (lxw_chart_assemble_xml_file c).1.id = c.id := by
    rw [assemble_fst]
    exact hframe.2.1
  have ht1 : recognizedChartType (lxw_chart_assemble_xml_file c).1.type := by
    rw [htype1]
    exact ht
  have ha2 := dispatch_axis_ids (lxw_chart_assemble_xml_file c).1
    (lxw_chart_assemble_xml_file c).1.type ht1
  have h3 : (lxw_chart_assemble_xml_file
      (lxw_chart_assemble_xml_file c).1).1.axis_id_1 = 50010000 + c.id + 1 := by
    rw [assemble_fst, ha2.1, if_neg (by rw [h1]; omega), h1]
  have h4 : (lxw_chart_assemble_xml_file
      (lxw_chart_assemble_xml_file c).1).1.axis_id_2 = 50010000 + c.id + 2 := by
    rw [assemble_fst, ha2.2, if_neg (by rw [h1]; omega), h2]
  refine ⟨h1, h2, h3, h4, ?_⟩
  rw [assemble_axid_vals c ht, assemble_axid_vals (lxw_chart_assemble_xml_file c).1 ht1,
    h1, h2, h3, h4]

/-- Claim C1 witness: a Line chart with workbook-assigned id 5 gets axis
id 50010006 on its first pass. -/
theorem claim_C1_witness :
    (lxw_chart_assemble_xml_file
        { lxw_chart_new LXW_CHART_LINE with id := 5 }).1.axis_id_1 = 50010006 :=
  (claim_C1_axis_ids { lxw_chart_new LXW_CHART_LINE with id := 5 } rfl
    (by decide) (by decide)).1

/-- Claim C9: a worksheet cell write with row at least 1,048,576 or
column at least 16,384 fails with the range error and leaves the store
(table and dimension bounds) unchanged — in particular at
(1_048_576, 0) and (0, 16_384) — while an in-range write succeeds,
keeps the table well-formed (rows and cells sorted, new entries at
their sorted position), makes the written value and format readable
back at the written coordinates, and changes no other cell. -/
theorem claim_C9_worksheet_write (ws : lxw_worksheet) (v : CellValue)
    (f : Option Nat) (hWF : tableWF ws.table) :
    worksheet_write ws LXW_ROW_MAX 0 v f = (.LXW_RANGE_ERROR, ws) ∧
    worksheet_write ws 0 LXW_COL_MAX v f = (.LXW_RANGE_ERROR, ws) ∧
    ∀ row col : Nat, row < LXW_ROW_MAX → col < LXW_COL_MAX →
      (worksheet_write ws row col v f).1 = .LXW_WRITE_ERROR_NONE ∧
      tableWF (worksheet_write ws row col v f).2.table ∧
      lookupCell (worksheet_write ws row col v f).2 row col =
        some { row_num := row, col_num := col, value := v, format := f } ∧
      ∀ r2 c2 : Nat, r2 ≠ row ∨ c2 ≠ col →
        lookupCell (worksheet_write ws row col v f).2 r2 c2 =
          lookupCell ws r2 c2 := by
  refine ⟨by simp [worksheet_write], by simp [worksheet_write], ?_⟩
  intro row col hrow hcol
  have hcond : ¬(row ≥ LXW_ROW_MAX ∨ col ≥ LXW_COL_MAX) := by omega
  refine ⟨?_, ?_, ?_, ?_⟩
  · unfold worksheet_write
    rw [if_neg hcond]
  · unfold worksheet_write
    rw [if_neg hcond]
    exact tableWF_insert ws.table row _ hWF rfl
  · unfold worksheet_write lookupCell
    rw [if_neg hcond]
    exact lookupTable_insert_self ws.table row _ (fun r hr => (hWF.2 r hr).2) rfl
  · intro r2 c2 hne
    unfold worksheet_write lookupCell
    rw [if_neg hcond]
    exact lookupTable_insert_other ws.table row _ r2 c2 hWF rfl hne

/-- Claim C9 witness: on an empty worksheet the boundary write is
rejected unchanged and an in-range write at the origin reads back. -/
theorem claim_C9_witness :
    worksheet_write
        { table := [], dim_rowmin := LXW_ROW_MAX, dim_rowmax := 0,
          dim_colmin := LXW_COL_MAX, dim_colmax := 0 } 1048576 0 CellValue.Blank none =
      (.LXW_RANGE_ERROR,
       { table := [], dim_rowmin := LXW_ROW_MAX, dim_rowmax := 0,
         dim_colmin := LXW_COL_MAX, dim_colmax := 0 }) ∧
    worksheet_write
        { table := [], dim_rowmin := LXW_ROW_MAX, dim_rowmax := 0,
          dim_colmin := LXW_COL_MAX, dim_colmax := 0 } 0 16384 CellValue.Blank none =
      (.LXW_RANGE_ERROR,
       { table := [], dim_rowmin := LXW_ROW_MAX, dim_rowmax := 0,
         dim_colmin := LXW_COL_MAX, dim_colmax := 0 }) ∧
    lookupCell
        (worksheet_write
          { table := [], dim_rowmin := LXW_ROW_MAX, dim_rowmax := 0,
            dim_colmin := LXW_COL_MAX, dim_colmax := 0 } 0 0 CellValue.Blank none).2
        0 0 =
      some { row_num := 0, col_num := 0, value := CellValue.Blank, format := none } := by
  have h := claim_C9_worksheet_write
    { table := [], dim_rowmin := LXW_ROW_MAX, dim_rowmax := 0,
      dim_colmin := LXW_COL_MAX, dim_colmax := 0 } CellValue.Blank none
    ⟨List.Pairwise.nil, by simp⟩
  exact ⟨h.1, h.2.1, (h.2.2 0 0 (by decide) (by decide)).2.2.1⟩

end Xlsx
